import Mathlib

/-! HikCamera session lifecycle: shallow embedding and verified properties

The embedding follows `src/HikCamera.cpp`.  The vendor driver (the `MV_CC_*`
functions) is external: every driver call consumes one response of an
arbitrary response stream `Driver`, so a statement quantified over all
`Driver`s covers every driver behaviour.  All driver calls, the sleeps of
`Reconnect` and the entries of `Open` are appended to a log.

Numbers: `unsigned int` values are `Nat` reduced modulo `2^32` where the code
computes them; `int` values are `Int` with two's-complement wrap-around
(`wrapInt32`) where the code computes them; `float` values are carried as
their IEEE-754 binary32 bit pattern (only assignment and the comparison
`> 0.0f` occur in the code).
-/

namespace hik

/-! ## Vendor constants -/

/-- Modelled from the spec: the success status of the vendor driver (`MV_OK`);
the vendor header declaring it is not part of the sources.  Value as in the
vendor SDK. -/
def MV_OK : Nat := 0

/-- Modelled from the spec: the "no data yet" status of the vendor driver
(`MV_E_NODATA`); the vendor header declaring it is not part of the sources.
Value as in the vendor SDK. -/
def MV_E_NODATA : Nat := 0x80000007

/-- Modelled from the spec: the code of the 3-byte BGR target pixel format
(`PixelType_Gvsp_BGR8_Packed`); the vendor header declaring it is not part of
the sources.  Value as in the vendor SDK. -/
def PixelType_Gvsp_BGR8_Packed : Nat := 0x02180015

/-- Modelled from the spec: transport kind "networked" (`MV_GIGE_DEVICE`) of the
vendor SDK, whose header is not part of the sources. -/
def MV_GIGE_DEVICE : Nat := 1

/-- Modelled from the spec: transport kind "USB" (`MV_USB_DEVICE`) of the vendor
SDK, whose header is not part of the sources. -/
def MV_USB_DEVICE : Nat := 4

/-! ## Machine numbers -/

/-- Two's-complement reduction of an integer to the range of a 32-bit `int`. -/
def wrapInt32 (x : Int) : Int := (x + 2147483648) % 4294967296 - 2147483648

/-- A `float` as its IEEE-754 binary32 bit pattern. -/
abbrev F32 := Nat

/-- The comparison `x > 0.0f` on a binary32 bit pattern: sign bit clear, not
zero, not a NaN (`+inf` compares greater than zero). -/
def F32.gtZero (x : F32) : Bool := decide (0 < x ∧ x ≤ 0x7F800000)

/-- Lower-case hexadecimal text of a number, as `std::hex` prints it. -/
def hexString (n : Nat) : String := String.mk (Nat.toDigits 16 n)

/-! ## Driver interface -/

/-- A device handle; `none` is `nullptr`. -/
abbrev Handle := Option Nat

/-- One entry of the driver's device list (`MV_CC_DEVICE_INFO`). -/
structure DeviceInfo where
  nTLayerType : Nat
  chSerialNumber : String
  chModelName : String
  nCurrentIp : Nat
deriving DecidableEq, Repr

/-- What the driver answers to one call.  Each call reads the fields that
concern it: `ret` is the status, `devices` the list filled by
`MV_CC_EnumDevices`, `handle` the handle written by `MV_CC_CreateHandle`, and
the frame fields what `MV_CC_GetImageBuffer` stores in `MV_FRAME_OUT`. -/
structure Resp where
  ret : Nat
  devices : List DeviceInfo
  handle : Nat
  nWidth : Nat
  nHeight : Nat
  enPixelType : Nat
  nFrameLen : Nat
deriving DecidableEq, Repr

/-- The status of a response as the 32-bit pattern held in `int ret`. -/
def Resp.status (r : Resp) : Nat := r.ret % 4294967296

/-- Number of devices of an enumeration (`nDeviceNum`). -/
def Resp.nDeviceNum (r : Resp) : Nat := r.devices.length

/-- A driver behaviour: the response to the `n`-th driver call. -/
abbrev Driver := Nat → Resp

/-- Logged events: the driver calls with their arguments, and three
bookkeeping events (`sleep` for `std::this_thread::sleep_for`, `callOpen` for
an entry into `HikCamera::Open`, `memcpy` for the direct copy). -/
inductive Event where
  | EnumDevices
  | CreateHandle (index : Nat)
  | OpenDevice (h : Handle)
  | CloseDevice (h : Handle)
  | DestroyHandle (h : Handle)
  | SetFloatValue (h : Handle) (key : String) (v : F32)
  | SetEnumValue (h : Handle) (key : String) (v : Nat)
  | SetIntValue (h : Handle) (key : String) (v : Nat)
  | SetCommandValue (h : Handle) (key : String)
  | StartGrabbing (h : Handle)
  | StopGrabbing (h : Handle)
  | GetImageBuffer (h : Handle) (timeout : Nat)
  | FreeImageBuffer (h : Handle)
  | ConvertPixelType (h : Handle) (nWidth nHeight nSrcDataLen enSrcPixelType nDstBufferSize : Nat)
  | memcpy (capacity : Nat) (n : Nat)
  | sleep (ms : Int)
  | callOpen (index : Nat)
deriving DecidableEq, Repr

/-! ## Session state -/

/-- The fields of `class HikCamera`.  `m_convertBuffer` is the size of the
current allocation (`none` is `nullptr`). -/
structure HikCamera where
  m_handle : Handle
  m_isOpen : Bool
  m_isGrabbing : Bool
  m_convertBuffer : Option Nat
  m_bufferSize : Nat
  m_deviceIndex : Nat
  m_savedExposure : F32
  m_savedGain : F32
  m_savedTrigger : Bool
  m_savedFrameRate : F32
  m_savedPixelFormat : Nat
  m_lastError : String
deriving DecidableEq, Repr

/-- The constructor `HikCamera::HikCamera()`. -/
def HikCamera.new : HikCamera :=
  { m_handle := none, m_isOpen := false, m_isGrabbing := false, m_convertBuffer := none,
    m_bufferSize := 0, m_deviceIndex := 0, m_savedExposure := 0, m_savedGain := 0,
    m_savedTrigger := false, m_savedFrameRate := 0, m_savedPixelFormat := 0, m_lastError := "" }

/-- The session together with the environment: how many driver responses
have been consumed, the event log, and the handles obtained from
`MV_CC_CreateHandle` on which `MV_CC_DestroyHandle` has not been invoked. -/
structure World where
  cam : HikCamera
  calls : Nat
  log : List Event
  live : List Nat
deriving DecidableEq, Repr

/-- A freshly constructed session in a fresh environment. -/
def World.init : World := { cam := HikCamera.new, calls := 0, log := [], live := [] }

/-- Record a driver call: one response is consumed and the call is logged. -/
def World.tick (w : World) (e : Event) : World :=
  { w with calls := w.calls + 1, log := w.log ++ [e] }

/-- Record a bookkeeping event. -/
def World.note (w : World) (e : Event) : World :=
  { w with log := w.log ++ [e] }

/-- The assignment `m_lastError = msg`. -/
def World.setLastError (w : World) (msg : String) : World :=
  { w with cam := { w.cam with m_lastError := msg } }

/-- The text `HikCamera::SetError` stores. -/
def errorText (error : String) (errorCode : Nat) : String :=
  error ++ " (Error code: 0x" ++ hexString errorCode ++ ")"

/-- `HikCamera::SetError`. -/
def World.SetError (w : World) (error : String) (errorCode : Nat) : World :=
  w.setLastError (errorText error errorCode)

/-- The handles still held after `MV_CC_DestroyHandle` has been invoked on
`h`: one occurrence of `h` is dropped; invoking it on `nullptr` drops
nothing. -/
def release (live : List Nat) (h : Handle) : List Nat :=
  match h with
  | none => live
  | some x => live.erase x

/-- The Parameter Store: the five saved configuration values. -/
structure ParameterStore where
  exposure : F32
  gain : F32
  frameRate : F32
  pixelFormat : Nat
  trigger : Bool
deriving DecidableEq, Repr

/-- The Parameter Store held in a session. -/
def HikCamera.store (c : HikCamera) : ParameterStore :=
  { exposure := c.m_savedExposure, gain := c.m_savedGain, frameRate := c.m_savedFrameRate,
    pixelFormat := c.m_savedPixelFormat, trigger := c.m_savedTrigger }

/-- Where the `data` pointer of an `ImageData` points. -/
inductive BufRef where
  | null
  | driverBuffer
  | convertBuffer
deriving DecidableEq, Repr

/-- The out-parameter `ImageData` of the retrieval calls. -/
structure ImageData where
  width : Nat
  height : Nat
  pixelFormat : Nat
  dataSize : Nat
  data : BufRef
deriving DecidableEq, Repr

/-! ## Operations -/

/-- `HikCamera::StopGrabbing`. -/
def StopGrabbing (drv : Driver) (w : World) : Bool × World :=
  if w.cam.m_isGrabbing = false then (true, w)
  else
    let r := drv w.calls
    let w1 := w.tick (.StopGrabbing w.cam.m_handle)
    if r.status ≠ MV_OK then (false, w1.SetError "Stop grabbing failed" r.status)
    else (true, { w1 with cam := { w1.cam with m_isGrabbing := false } })

/-- `HikCamera::StartGrabbing`. -/
def StartGrabbing (drv : Driver) (w : World) : Bool × World :=
  if w.cam.m_isOpen = false then (false, w.setLastError "Camera is not open")
  else if w.cam.m_isGrabbing = true then (true, w)
  else
    let r := drv w.calls
    let w1 := w.tick (.StartGrabbing w.cam.m_handle)
    if r.status ≠ MV_OK then (false, w1.SetError "Start grabbing failed" r.status)
    else (true, { w1 with cam := { w1.cam with m_isGrabbing := true } })

/-- `HikCamera::Close`. -/
def Close (drv : Driver) (w : World) : Bool × World :=
  if w.cam.m_isOpen = false then (true, w)
  else
    let w1 := if w.cam.m_isGrabbing = true then (StopGrabbing drv w).2 else w
    let r2 := drv w1.calls
    let w2 := w1.tick (.CloseDevice w1.cam.m_handle)
    let w3 := if r2.status ≠ MV_OK then w2.SetError "Close device failed" r2.status else w2
    let r4 := drv w3.calls
    let w4 := { w3.tick (.DestroyHandle w3.cam.m_handle) with
                live := release w3.live w3.cam.m_handle }
    let w5 := if r4.status ≠ MV_OK then w4.SetError "Destroy handle failed" r4.status else w4
    (true, { w5 with cam := { w5.cam with m_handle := none, m_isOpen := false } })

/-- `HikCamera::Open`.  `MV_CC_CreateHandle` yields a handle or an error: on
an error `m_handle` keeps its value. -/
def Open (drv : Driver) (index : Nat) (w0 : World) : Bool × World :=
  let w := w0.note (.callOpen index)
  if w.cam.m_isOpen = true then (false, w.setLastError "Camera is already open")
  else
    let r1 := drv w.calls
    let w1 := w.tick .EnumDevices
    if r1.status ≠ MV_OK then (false, w1.SetError "Enumerate devices failed" r1.status)
    else if index ≥ r1.nDeviceNum then (false, w1.setLastError "Invalid device index")
    else
      let r2 := drv w1.calls
      let w2 := w1.tick (.CreateHandle index)
      if r2.status ≠ MV_OK then (false, w2.SetError "Create handle failed" r2.status)
      else
        let w2h : World :=
          { w2 with cam := { w2.cam with m_handle := some r2.handle }, live := r2.handle :: w2.live }
        let r3 := drv w2h.calls
        let w3 := w2h.tick (.OpenDevice w2h.cam.m_handle)
        if r3.status ≠ MV_OK then
          let w4 := w3.SetError "Open device failed" r3.status
          let w5 := { w4.tick (.DestroyHandle w4.cam.m_handle) with
                      live := release w4.live w4.cam.m_handle }
          (false, { w5 with cam := { w5.cam with m_handle := none } })
        else
          let w4 := w3.tick (.SetEnumValue w3.cam.m_handle "TriggerMode" 0)
          (true, { w4 with cam := { w4.cam with m_isOpen := true } })

/-- The serial number `OpenBySerialNumber` compares for one device. -/
def DeviceInfo.sn (d : DeviceInfo) : String :=
  if d.nTLayerType = MV_GIGE_DEVICE then d.chSerialNumber
  else if d.nTLayerType = MV_USB_DEVICE then d.chSerialNumber
  else ""

/-- `HikCamera::OpenBySerialNumber`. -/
def OpenBySerialNumber (drv : Driver) (serialNumber : String) (w : World) : Bool × World :=
  if w.cam.m_isOpen = true then (false, w.setLastError "Camera is already open")
  else
    let r1 := drv w.calls
    let w1 := w.tick .EnumDevices
    if r1.status ≠ MV_OK then (false, w1.SetError "Enumerate devices failed" r1.status)
    else
      match r1.devices.findIdx? (fun d => d.sn == serialNumber) with
      | none =>
        (false, w1.setLastError ("Device with serial number '" ++ serialNumber ++ "' not found"))
      | some deviceIndex => Open drv deviceIndex w1

/-- `HikCamera::GrabImage`. -/
def GrabImage (drv : Driver) (imageData : ImageData) (timeout : Nat) (w : World) :
    Bool × ImageData × World :=
  if w.cam.m_isGrabbing = false then (false, imageData, w.setLastError "Camera is not grabbing")
  else
    let r := drv w.calls
    let w1 := w.tick (.GetImageBuffer w.cam.m_handle timeout)
    if r.status ≠ MV_OK then
      (false, imageData,
        if r.status ≠ MV_E_NODATA then w1.SetError "Get image buffer failed" r.status else w1)
    else
      let out : ImageData :=
        { width := r.nWidth, height := r.nHeight, pixelFormat := r.enPixelType,
          dataSize := r.nFrameLen, data := .driverBuffer }
      (true, out, w1.tick (.FreeImageBuffer w1.cam.m_handle))

/-- `HikCamera::GrabImageBGR`. -/
def GrabImageBGR (drv : Driver) (imageData : ImageData) (timeout : Nat) (w : World) :
    Bool × ImageData × World :=
  if w.cam.m_isGrabbing = false then (false, imageData, w.setLastError "Camera is not grabbing")
  else
    let r := drv w.calls
    let w1 := w.tick (.GetImageBuffer w.cam.m_handle timeout)
    if r.status ≠ MV_OK then
      (false, imageData,
        if r.status ≠ MV_E_NODATA then w1.SetError "Get image buffer failed" r.status else w1)
    else
      let nBGRSize := (r.nWidth * r.nHeight * 3) % 4294967296
      let w2 : World :=
        if w1.cam.m_bufferSize < nBGRSize then
          { w1 with cam := { w1.cam with m_convertBuffer := some nBGRSize, m_bufferSize := nBGRSize } }
        else w1
      let out : ImageData :=
        { width := r.nWidth, height := r.nHeight, pixelFormat := PixelType_Gvsp_BGR8_Packed,
          dataSize := nBGRSize, data := .convertBuffer }
      if r.enPixelType = PixelType_Gvsp_BGR8_Packed then
        let w3 := w2.note (.memcpy w2.cam.m_bufferSize r.nFrameLen)
        (true, out, w3.tick (.FreeImageBuffer w3.cam.m_handle))
      else
        let rc := drv w2.calls
        let w3 := w2.tick (.ConvertPixelType w2.cam.m_handle r.nWidth r.nHeight r.nFrameLen
                              r.enPixelType nBGRSize)
        if rc.status ≠ MV_OK then
          let w4 := w3.SetError "Convert pixel type failed" rc.status
          (false, imageData, w4.tick (.FreeImageBuffer w4.cam.m_handle))
        else
          (true, out, w3.tick (.FreeImageBuffer w3.cam.m_handle))

/-- `HikCamera::SetExposureTime`. -/
def SetExposureTime (drv : Driver) (exposureTime : F32) (w : World) : Bool × World :=
  if w.cam.m_isOpen = false then (false, w.setLastError "Camera is not open")
  else
    let r := drv w.calls
    let w1 := w.tick (.SetFloatValue w.cam.m_handle "ExposureTime" exposureTime)
    if r.status ≠ MV_OK then (false, w1.SetError "Set exposure time failed" r.status)
    else (true, { w1 with cam := { w1.cam with m_savedExposure := exposureTime } })

/-- `HikCamera::SetGain`. -/
def SetGain (drv : Driver) (gain : F32) (w : World) : Bool × World :=
  if w.cam.m_isOpen = false then (false, w.setLastError "Camera is not open")
  else
    let r := drv w.calls
    let w1 := w.tick (.SetFloatValue w.cam.m_handle "Gain" gain)
    if r.status ≠ MV_OK then (false, w1.SetError "Set gain failed" r.status)
    else (true, { w1 with cam := { w1.cam with m_savedGain := gain } })

/-- `HikCamera::SetFrameRate`. -/
def SetFrameRate (drv : Driver) (fps : F32) (w : World) : Bool × World :=
  if w.cam.m_isOpen = false then (false, w.setLastError "Camera is not open")
  else
    let r := drv w.calls
    let w1 := w.tick (.SetFloatValue w.cam.m_handle "AcquisitionFrameRate" fps)
    if r.status ≠ MV_OK then
      let w2 := w1.tick (.SetEnumValue w1.cam.m_handle "AcquisitionFrameRateEnable" 1)
      let r3 := drv w2.calls
      let w3 := w2.tick (.SetFloatValue w2.cam.m_handle "AcquisitionFrameRate" fps)
      if r3.status ≠ MV_OK then (false, w3.SetError "Set frame rate failed" r3.status)
      else (true, { w3 with cam := { w3.cam with m_savedFrameRate := fps } })
    else (true, { w1 with cam := { w1.cam with m_savedFrameRate := fps } })

/-- `HikCamera::SetPixelFormat`. -/
def SetPixelFormat (drv : Driver) (pixelFormat : Nat) (w : World) : Bool × World :=
  if w.cam.m_isOpen = false then (false, w.setLastError "Camera is not open")
  else
    let r := drv w.calls
    let w1 := w.tick (.SetEnumValue w.cam.m_handle "PixelFormat" pixelFormat)
    if r.status ≠ MV_OK then (false, w1.SetError "Set pixel format failed" r.status)
    else (true, { w1 with cam := { w1.cam with m_savedPixelFormat := pixelFormat } })

/-- `HikCamera::SetTriggerMode`. -/
def SetTriggerMode (drv : Driver) (enable : Bool) (w : World) : Bool × World :=
  if w.cam.m_isOpen = false then (false, w.setLastError "Camera is not open")
  else
    let r := drv w.calls
    let w1 := w.tick (.SetEnumValue w.cam.m_handle "TriggerMode" (if enable then 1 else 0))
    if r.status ≠ MV_OK then (false, w1.SetError "Set trigger mode failed" r.status)
    else (true, { w1 with cam := { w1.cam with m_savedTrigger := enable } })

/-- `HikCamera::SetPacketSize`. -/
def SetPacketSize (drv : Driver) (packetSize : Nat) (w : World) : Bool × World :=
  if w.cam.m_isOpen = false then (false, w.setLastError "Camera is not open")
  else
    let r := drv w.calls
    let w1 := w.tick (.SetIntValue w.cam.m_handle "GevSCPSPacketSize" packetSize)
    if r.status ≠ MV_OK then (false, w1.SetError "Set PacketSize failed" r.status)
    else (true, w1)

/-- `HikCamera::SetPacketDelay`. -/
def SetPacketDelay (drv : Driver) (packetDelay : Nat) (w : World) : Bool × World :=
  if w.cam.m_isOpen = false then (false, w.setLastError "Camera is not open")
  else
    let r := drv w.calls
    let w1 := w.tick (.SetIntValue w.cam.m_handle "GevSCPD" packetDelay)
    if r.status ≠ MV_OK then (false, w1.SetError "Set PacketDelay failed" r.status)
    else (true, w1)

/-- `HikCamera::TriggerSoftware`. -/
def TriggerSoftware (drv : Driver) (w : World) : Bool × World :=
  if w.cam.m_isOpen = false then (false, w.setLastError "Camera is not open")
  else
    let r := drv w.calls
    let w1 := w.tick (.SetCommandValue w.cam.m_handle "TriggerSoftware")
    if r.status ≠ MV_OK then (false, w1.SetError "Software trigger failed" r.status)
    else (true, w1)

/-- The part of one pass through the loop of `HikCamera::Reconnect` before
`Open`: stop grabbing if active, close if open, then the back-off sleep of
`retryDelayMs * attempt` milliseconds (an `int` product). -/
def ReconnectPrepare (drv : Driver) (retryDelayMs attempt : Int) (w : World) : World :=
  let w1 := if w.cam.m_isGrabbing = true then (StopGrabbing drv w).2 else w
  let w2 := if w1.cam.m_isOpen = true then (Close drv w1).2 else w1
  w2.note (.sleep (wrapInt32 (retryDelayMs * attempt)))

/-- The part of one pass through the loop of `HikCamera::Reconnect` between
`Open` and `StartGrabbing`: the saved settings are applied again. -/
def ReconnectRestore (drv : Driver) (w : World) : World :=
  let w1 := if w.cam.m_savedExposure.gtZero = true then (SetExposureTime drv w.cam.m_savedExposure w).2 else w
  let w2 := if w1.cam.m_savedGain.gtZero = true then (SetGain drv w1.cam.m_savedGain w1).2 else w1
  let w3 := if w2.cam.m_savedFrameRate.gtZero = true then (SetFrameRate drv w2.cam.m_savedFrameRate w2).2 else w2
  let w4 := if 0 < w3.cam.m_savedPixelFormat then (SetPixelFormat drv w3.cam.m_savedPixelFormat w3).2 else w3
  (SetTriggerMode drv w4.cam.m_savedTrigger w4).2

/-- One pass through the body of the loop of `HikCamera::Reconnect`.  The
result `true` is the `return true` of the body; `false` is a `continue`. -/
def ReconnectAttempt (drv : Driver) (index : Nat) (retryDelayMs attempt : Int) (w : World) :
    Bool × World :=
  let o := Open drv index (ReconnectPrepare drv retryDelayMs attempt w)
  if o.1 = false then (false, o.2)
  else
    let s := StartGrabbing drv (ReconnectRestore drv o.2)
    if s.1 = false then (false, (Close drv s.2).2)
    else (true, s.2)

/-- The loop of `HikCamera::Reconnect`, entered with the counter `attempt`.
The first argument bounds the number of passes; `none` means the bound was
reached before the loop ended.  `++attempt` is an `int` increment. -/
def ReconnectLoop (drv : Driver) (index : Nat) (maxRetries retryDelayMs : Int) :
    Nat → Int → World → Option (Bool × World)
  | 0, _, _ => none
  | fuel + 1, attempt, w =>
    if attempt ≤ maxRetries ∧ w.cam.m_isOpen = false then
      let a := ReconnectAttempt drv index retryDelayMs attempt w
      if a.1 = true then some (true, a.2)
      else ReconnectLoop drv index maxRetries retryDelayMs fuel (wrapInt32 (attempt + 1)) a.2
    else some (false, w)

/-- `HikCamera::Reconnect`, with a bound on the number of loop passes. -/
def Reconnect (drv : Driver) (index : Nat) (maxRetries retryDelayMs : Int) (fuel : Nat)
    (w : World) : Option (Bool × World) :=
  ReconnectLoop drv index maxRetries retryDelayMs fuel 1
    { w with cam := { w.cam with m_deviceIndex := index } }

/-! ## Reachable sessions -/

/-- The sessions reachable from a freshly constructed one by the public
operations, each under an arbitrary driver behaviour. -/
inductive Reachable : World → Prop where
  | init : Reachable World.init
  | Open (drv : Driver) (index : Nat) {w : World} :
      Reachable w → Reachable (Open drv index w).2
  | OpenBySerialNumber (drv : Driver) (serialNumber : String) {w : World} :
      Reachable w → Reachable (OpenBySerialNumber drv serialNumber w).2
  | Close (drv : Driver) {w : World} : Reachable w → Reachable (Close drv w).2
  | StartGrabbing (drv : Driver) {w : World} : Reachable w → Reachable (StartGrabbing drv w).2
  | StopGrabbing (drv : Driver) {w : World} : Reachable w → Reachable (StopGrabbing drv w).2
  | GrabImage (drv : Driver) (imageData : ImageData) (timeout : Nat) {w : World} :
      Reachable w → Reachable (GrabImage drv imageData timeout w).2.2
  | GrabImageBGR (drv : Driver) (imageData : ImageData) (timeout : Nat) {w : World} :
      Reachable w → Reachable (GrabImageBGR drv imageData timeout w).2.2
  | SetExposureTime (drv : Driver) (v : F32) {w : World} :
      Reachable w → Reachable (SetExposureTime drv v w).2
  | SetGain (drv : Driver) (v : F32) {w : World} : Reachable w → Reachable (SetGain drv v w).2
  | SetFrameRate (drv : Driver) (v : F32) {w : World} :
      Reachable w → Reachable (SetFrameRate drv v w).2
  | SetPixelFormat (drv : Driver) (v : Nat) {w : World} :
      Reachable w → Reachable (SetPixelFormat drv v w).2
  | SetTriggerMode (drv : Driver) (v : Bool) {w : World} :
      Reachable w → Reachable (SetTriggerMode drv v w).2
  | SetPacketSize (drv : Driver) (v : Nat) {w : World} :
      Reachable w → Reachable (SetPacketSize drv v w).2
  | SetPacketDelay (drv : Driver) (v : Nat) {w : World} :
      Reachable w → Reachable (SetPacketDelay drv v w).2
  | TriggerSoftware (drv : Driver) {w : World} : Reachable w → Reachable (TriggerSoftware drv w).2
  | Reconnect (drv : Driver) (index : Nat) (maxRetries retryDelayMs : Int) (fuel : Nat)
      {w w' : World} {r : Bool} :
      Reachable w → Reconnect drv index maxRetries retryDelayMs fuel w = some (r, w') →
      Reachable w'

/-! ## Concrete driver behaviours used in examples -/

/-- A response reporting success, with one networked device in the device
list, handle `7`, and a 4 x 2 frame of 24 bytes in the BGR target format. -/
def okResp : Resp :=
  { ret := 0,
    devices := [{ nTLayerType := 1, chSerialNumber := "SN0", chModelName := "M", nCurrentIp := 3232235777 }],
    handle := 7, nWidth := 4, nHeight := 2, enPixelType := 0x02180015, nFrameLen := 24 }

/-- A response reporting the generic driver error `0x80000000`. -/
def errResp : Resp := { okResp with ret := 0x80000000 }

/-- The driver that always succeeds. -/
def okDriver : Driver := fun _ => okResp

/-- The driver that always fails. -/
def errDriver : Driver := fun _ => errResp

/-- The driver that fails exactly its `n`-th call (counted from 0). -/
def failAt (n : Nat) : Driver := fun k => if k = n then errResp else okResp

/-! ## Session predicates -/

/-- The session state `Closed`: not open and the handle is null. -/
def Closed (w : World) : Prop := w.cam.m_isOpen = false ∧ w.cam.m_handle = none

instance : DecidablePred Closed := fun w => by unfold Closed; infer_instance

/-- A session that is not open holds no handle. -/
def HandleInv (w : World) : Prop := w.cam.m_isOpen = false → w.cam.m_handle = none

instance : DecidablePred HandleInv := fun w => by unfold HandleInv; infer_instance

/-- The invariant of the session: grabbing implies open. -/
def GrabbingInv (w : World) : Prop := w.cam.m_isGrabbing = true → w.cam.m_isOpen = true

instance : DecidablePred GrabbingInv := fun w => by unfold GrabbingInv; infer_instance

/-! ## Example sessions -/

/-- The driver whose sixth call fails; after `Open` and `StartGrabbing` that
call is the stop issued by `Close`. -/
def stopFails : Driver := failAt 5

/-- The session after `Open(0)` on the always-succeeding driver. -/
def openSession : World := (Open okDriver 0 World.init).2

/-- The session after `Open(0)` and `StartGrabbing()`, both succeeding. -/
def grabbingSession : World := (StartGrabbing stopFails (Open stopFails 0 World.init).2).2

/-- The session after `Open(0)`, `StartGrabbing()` and a `Close()` during
which the driver refuses to stop grabbing. -/
def staleGrabbing : World := (Close stopFails grabbingSession).2

/-- The bit pattern of the `float` 5000.0. -/
def f5000 : F32 := 0x459C4000

/-- The session after `Open(0)`, `SetExposureTime(5000)` and `Close()`, all
succeeding. -/
def configuredClosed : World :=
  (Close okDriver (SetExposureTime okDriver f5000 (Open okDriver 0 World.init).2).2).2

/-- The driver that reports success with an empty device list. -/
def noDevices : Driver := fun _ => { okResp with devices := [] }

/-- The driver that always reports "no data yet". -/
def nodataDriver : Driver := fun _ => { okResp with ret := 0x80000007 }

/-- The session after `Open(0)` and `StartGrabbing()` on the always-succeeding
driver. -/
def grabbingOk : World := (StartGrabbing okDriver (Open okDriver 0 World.init).2).2

/-- An `ImageData` that no retrieval has filled yet. -/
def ImageData.empty : ImageData :=
  { width := 0, height := 0, pixelFormat := 0, dataSize := 0, data := .null }

/-- The grabbing session after one retrieval that met the hard driver error
`0x80000000`. -/
def afterHardFailure : World := (GrabImage errDriver ImageData.empty 1000 grabbingOk).2.2

/-- What the caller can observe of a retrieval call: the returned flag and the
recorded last-error text. -/
def observe (x : Bool × ImageData × World) : Bool × String := (x.1, x.2.2.cam.m_lastError)

/-- The Conversion Buffer capacities (`m_bufferSize`) after each call of a
sequence of `GrabImageBGR` calls, given by their arguments. -/
def capacitiesAfter (drv : Driver) : List (ImageData × Nat) → World → List Nat
  | [], _ => []
  | c :: rest, w =>
    (GrabImageBGR drv c.1 c.2 w).2.2.cam.m_bufferSize ::
      capacitiesAfter drv rest (GrabImageBGR drv c.1 c.2 w).2.2

/-! ## The attempts of `Reconnect` -/

/-- The events that mark the attempts of `Reconnect`: back-off sleeps and
entries into `Open`. -/
def isAttemptEvent : Event → Bool
  | .sleep _ => true
  | .callOpen _ => true
  | _ => false

/-- The sleeps and `Open` entries logged so far, in order. -/
def World.attempts (w : World) : List Event := w.log.filter isAttemptEvent

/-- The sleeps and `Open` entries of `k` attempts with base delay `d`: before
the `n`-th `Open(index)` a sleep of `d * n` milliseconds. -/
def schedule (index : Nat) (d : Int) : Nat → List Event
  | 0 => []
  | k + 1 => schedule index d k ++ [.sleep (d * ((k : Int) + 1)), .callOpen index]

/-- Number of entries into `Open` among the events. -/
def openCalls : List Event → Nat
  | [] => 0
  | .callOpen _ :: rest => openCalls rest + 1
  | _ :: rest => openCalls rest

/-- Total of the sleep durations among the events, in milliseconds. -/
def sleepTotal : List Event → Int
  | [] => 0
  | .sleep ms :: rest => ms + sleepTotal rest
  | _ :: rest => sleepTotal rest

/-- The session after the first `k` passes through the loop body of
`Reconnect` (attempts `1 .. k`) with base delay `d`. -/
def attemptState (drv : Driver) (index : Nat) (d : Int) : Nat → World → World
  | 0, w => w
  | k + 1, w => (ReconnectAttempt drv index d ((k : Int) + 1) (attemptState drv index d k w)).2

/-- Whether attempt `k` of `Reconnect` (counted from 1), run after the
`k - 1` earlier passes, ends in `return true`. -/
def attemptSucceeds (drv : Driver) (index : Nat) (d : Int) (k : Nat) (w : World) : Bool :=
  (ReconnectAttempt drv index d (k : Int) (attemptState drv index d (k - 1) w)).1

/-- The entry state of the loop of `Reconnect`: the session with
`m_deviceIndex` set. -/
def reconnectEntry (index : Nat) (w : World) : World :=
  { w with cam := { w.cam with m_deviceIndex := index } }

/-! ## Frame retrieval: bookkeeping and example drivers -/

/-- Number of `MV_CC_FreeImageBuffer` calls among the events. -/
def freeCalls : List Event → Nat
  | [] => 0
  | .FreeImageBuffer _ :: rest => freeCalls rest + 1
  | _ :: rest => freeCalls rest

/-- The driver that delivers 40000 x 40000 frames in the 8-bit mono format
(code `0x01080001`, frame length 1600000000 bytes) and succeeds in every
call. -/
def hugeMonoDriver : Driver := fun _ =>
  { okResp with nWidth := 40000, nHeight := 40000, enPixelType := 0x01080001,
                nFrameLen := 1600000000 }

/-- The driver that delivers 40000 x 40000 frames already in the BGR target
format and succeeds in every call. -/
def hugeBgrDriver : Driver := fun _ =>
  { okResp with nWidth := 40000, nHeight := 40000, nFrameLen := 505032704 }

/-- The driver that delivers 4 x 2 frames in the BGR target format whose
reported frame length is 100 bytes, and succeeds in every call. -/
def longFrameDriver : Driver := fun _ => { okResp with nFrameLen := 100 }

/-- The driver whose ninth call fails; on `staleGrabbing` that call is the
stop that `Reconnect` issues on the null handle before its first attempt. -/
def stopFailsAgain : Driver := failAt 8

/-- The session after `Open(0)` and `SetExposureTime` with the bit pattern of
the `float` -1.0, accepted by the driver, followed by `Close()`. -/
def negativeExposureClosed : World :=
  (Close okDriver (SetExposureTime okDriver 0xBF800000 (Open okDriver 0 World.init).2).2).2

/-- The driver calls by which `Reconnect` applies the saved settings again on
the session `w`, in the order the code issues them: exposure, gain and
frame rate when the saved `float` compares `> 0.0f`, the pixel format when
it compares `> 0`, and the trigger mode in every case.  The frame-rate
setter adds its enable-and-retry calls when its direct call fails. -/
def replayCalls (drv : Driver) (w : World) : List Event :=
  (if w.cam.m_savedExposure.gtZero = true then
      [Event.SetFloatValue w.cam.m_handle "ExposureTime" w.cam.m_savedExposure] else []) ++
  (if w.cam.m_savedGain.gtZero = true then
      [Event.SetFloatValue w.cam.m_handle "Gain" w.cam.m_savedGain] else []) ++
  (if w.cam.m_savedFrameRate.gtZero = true then
      Event.SetFloatValue w.cam.m_handle "AcquisitionFrameRate" w.cam.m_savedFrameRate ::
        (if (drv (w.calls + (if w.cam.m_savedExposure.gtZero = true then 1 else 0) +
              (if w.cam.m_savedGain.gtZero = true then 1 else 0))).status ≠ MV_OK then
          [Event.SetEnumValue w.cam.m_handle "AcquisitionFrameRateEnable" 1,
            Event.SetFloatValue w.cam.m_handle "AcquisitionFrameRate" w.cam.m_savedFrameRate]
        else [])
    else []) ++
  (if 0 < w.cam.m_savedPixelFormat then
      [Event.SetEnumValue w.cam.m_handle "PixelFormat" w.cam.m_savedPixelFormat] else []) ++
  [Event.SetEnumValue w.cam.m_handle "TriggerMode" (if w.cam.m_savedTrigger = true then 1 else 0)]

/-- The two bit patterns of the `float` zero: `+0.0` and `-0.0`. -/
def F32.isZero (x : F32) : Bool := decide (x = 0 ∨ x = 0x80000000)

/-! ## Device enumeration -/

/-- The entry `CameraInfo` that `EnumerateDevices` returns for one device. -/
structure CameraInfo where
  deviceType : Nat
  serialNumber : String
  modelName : String
  ipAddress : String
deriving DecidableEq, Repr

/-- Decimal text of a number, as `operator<<` prints an `unsigned int`. -/
def decString (n : Nat) : String := String.mk (Nat.toDigits 10 n)

/-- The address text `EnumerateDevices` builds from the packed address
`ip`: the four masked and shifted bytes in decimal, separated by dots. -/
def formatIp (ip : Nat) : String :=
  decString ((ip &&& 0xFF000000) >>> 24) ++ "." ++ decString ((ip &&& 0x00FF0000) >>> 16) ++
    "." ++ decString ((ip &&& 0x0000FF00) >>> 8) ++ "." ++ decString (ip &&& 0x000000FF)

/-- The entry built for one device of the driver's list; `nCurrentIp` is an
`unsigned int`. -/
def cameraInfoOf (d : DeviceInfo) : CameraInfo :=
  if d.nTLayerType = MV_GIGE_DEVICE then
    { deviceType := d.nTLayerType, serialNumber := d.chSerialNumber, modelName := d.chModelName,
      ipAddress := formatIp (d.nCurrentIp % 4294967296) }
  else if d.nTLayerType = MV_USB_DEVICE then
    { deviceType := d.nTLayerType, serialNumber := d.chSerialNumber, modelName := d.chModelName,
      ipAddress := "USB" }
  else
    { deviceType := d.nTLayerType, serialNumber := "", modelName := "", ipAddress := "" }

/-- `HikCamera::EnumerateDevices` (a static function: it uses no session
field). -/
def EnumerateDevices (drv : Driver) (w : World) : List CameraInfo × World :=
  let r := drv w.calls
  let w1 := w.tick .EnumDevices
  if r.status ≠ MV_OK then ([], w1)
  else (r.devices.map cameraInfoOf, w1)

/-- The text "a.b.c.d" of the claim: four numbers in decimal separated by
dots. -/
def dottedQuad (a b c d : Nat) : String :=
  decString a ++ "." ++ decString b ++ "." ++ decString c ++ "." ++ decString d

/-- The number a list of decimal digit characters stands for. -/
def digitsValue (cs : List Char) : Nat :=
  cs.foldl (fun acc c => acc * 10 + (c.toNat - 48)) 0

/-- A networked device with the packed address `192.168.1.1`. -/
def gigeDevice : DeviceInfo :=
  { nTLayerType := 1, chSerialNumber := "SN0", chModelName := "M", nCurrentIp := 3232235777 }

/-! ## Basic facts about the operations -/

theorem wrapInt32_of_range (x : Int) (h0 : -2147483648 ≤ x) (h1 : x ≤ 2147483647) :
    wrapInt32 x = x := by
  unfold wrapInt32; omega

theorem wrapInt32_range (x : Int) : -2147483648 ≤ wrapInt32 x ∧ wrapInt32 x ≤ 2147483647 := by
  unfold wrapInt32; omega

section frame

variable (drv : Driver)

theorem StopGrabbing_isOpen (w : World) :
    (StopGrabbing drv w).2.cam.m_isOpen = w.cam.m_isOpen := by
  unfold StopGrabbing; dsimp only
  split_ifs <;> rfl

theorem StopGrabbing_handle (w : World) :
    (StopGrabbing drv w).2.cam.m_handle = w.cam.m_handle := by
  unfold StopGrabbing; dsimp only
  split_ifs <;> rfl

theorem StopGrabbing_store (w : World) :
    (StopGrabbing drv w).2.cam.store = w.cam.store := by
  unfold StopGrabbing; dsimp only
  split_ifs <;> rfl

theorem StopGrabbing_live (w : World) : (StopGrabbing drv w).2.live = w.live := by
  unfold StopGrabbing; dsimp only
  split_ifs <;> rfl

theorem StopGrabbing_bufferSize (w : World) :
    (StopGrabbing drv w).2.cam.m_bufferSize = w.cam.m_bufferSize := by
  unfold StopGrabbing; dsimp only
  split_ifs <;> rfl

theorem Close_fst (w : World) : (Close drv w).1 = true := by
  unfold Close; dsimp only
  split_ifs <;> rfl

theorem Close_isOpen (w : World) : (Close drv w).2.cam.m_isOpen = false := by
  unfold Close; dsimp only
  split_ifs <;> first | assumption | rfl

theorem Close_handle (w : World) (hw : HandleInv w) : (Close drv w).2.cam.m_handle = none := by
  unfold Close; dsimp only
  split_ifs with h <;> first | exact hw h | rfl

theorem Close_closed (w : World) (hw : HandleInv w) : Closed (Close drv w).2 :=
  ⟨Close_isOpen drv w, Close_handle drv w hw⟩

theorem Close_store (w : World) : (Close drv w).2.cam.store = w.cam.store := by
  unfold Close; dsimp only
  split_ifs <;> first | rfl | exact StopGrabbing_store drv w

theorem Close_of_not_open (w : World) (h : w.cam.m_isOpen = false) : Close drv w = (true, w) := by
  unfold Close
  rw [if_pos h]

theorem StartGrabbing_isOpen (w : World) :
    (StartGrabbing drv w).2.cam.m_isOpen = w.cam.m_isOpen := by
  unfold StartGrabbing; dsimp only
  split_ifs <;> rfl

theorem StartGrabbing_handle (w : World) :
    (StartGrabbing drv w).2.cam.m_handle = w.cam.m_handle := by
  unfold StartGrabbing; dsimp only
  split_ifs <;> rfl

theorem StartGrabbing_store (w : World) :
    (StartGrabbing drv w).2.cam.store = w.cam.store := by
  unfold StartGrabbing; dsimp only
  split_ifs <;> rfl

theorem StartGrabbing_true_isOpen (w : World) (h : (StartGrabbing drv w).1 = true) :
    w.cam.m_isOpen = true := by
  unfold StartGrabbing at h
  by_contra hc
  rw [if_pos (by simpa using hc)] at h
  exact Bool.false_ne_true h

theorem Open_store (index : Nat) (w : World) :
    (Open drv index w).2.cam.store = w.cam.store := by
  unfold Open; dsimp only
  split_ifs <;> rfl

theorem Open_handleInv (index : Nat) (w : World) (hw : HandleInv w) :
    HandleInv (Open drv index w).2 := by
  unfold Open; dsimp only
  split_ifs with h1 h2 h3 h4 h5
  · intro h; exact absurd h (by simpa [World.setLastError, World.note] using h1)
  · exact hw
  · exact hw
  · exact hw
  · intro _; rfl
  · intro h; exact absurd h (by simp)

theorem Open_true_isOpen (index : Nat) (w : World) (h : (Open drv index w).1 = true) :
    (Open drv index w).2.cam.m_isOpen = true := by
  revert h
  unfold Open; dsimp only
  split_ifs <;> simp

theorem Open_false_isOpen (index : Nat) (w : World) (hw : w.cam.m_isOpen = false)
    (h : (Open drv index w).1 = false) : (Open drv index w).2.cam.m_isOpen = false := by
  revert h
  unfold Open; dsimp only
  split_ifs <;> simp [World.SetError, World.setLastError, World.tick, World.note, hw]

theorem Open_false_closed (index : Nat) (w : World) (hw : Closed w)
    (h : (Open drv index w).1 = false) : Closed (Open drv index w).2 :=
  ⟨Open_false_isOpen drv index w hw.1 h,
    Open_handleInv drv index w (fun _ => hw.2) (Open_false_isOpen drv index w hw.1 h)⟩

theorem Open_false_live (index : Nat) (w : World) (hw : w.cam.m_isOpen = false)
    (h : (Open drv index w).1 = false) : (Open drv index w).2.live = w.live := by
  revert h
  unfold Open; dsimp only
  split_ifs <;>
    simp [World.SetError, World.setLastError, World.tick, World.note, hw, release]

theorem SetExposureTime_isOpen (v : F32) (w : World) :
    (SetExposureTime drv v w).2.cam.m_isOpen = w.cam.m_isOpen := by
  unfold SetExposureTime; dsimp only
  split_ifs <;> rfl

theorem SetExposureTime_handle (v : F32) (w : World) :
    (SetExposureTime drv v w).2.cam.m_handle = w.cam.m_handle := by
  unfold SetExposureTime; dsimp only
  split_ifs <;> rfl

theorem SetExposureTime_store_of_false (v : F32) (w : World)
    (h : (SetExposureTime drv v w).1 = false) :
    (SetExposureTime drv v w).2.cam.store = w.cam.store := by
  revert h
  unfold SetExposureTime; dsimp only
  split_ifs <;> first | (intro _; rfl) | (intro h; exact absurd h (by simp))

theorem SetExposureTime_store_of_true (v : F32) (w : World)
    (h : (SetExposureTime drv v w).1 = true) :
    (SetExposureTime drv v w).2.cam.store = { w.cam.store with exposure := v } := by
  revert h
  unfold SetExposureTime; dsimp only
  split_ifs <;> first | (intro _; rfl) | (intro h; exact absurd h (by simp))

theorem SetGain_isOpen (v : F32) (w : World) :
    (SetGain drv v w).2.cam.m_isOpen = w.cam.m_isOpen := by
  unfold SetGain; dsimp only
  split_ifs <;> rfl

theorem SetGain_handle (v : F32) (w : World) :
    (SetGain drv v w).2.cam.m_handle = w.cam.m_handle := by
  unfold SetGain; dsimp only
  split_ifs <;> rfl

theorem SetGain_store_of_false (v : F32) (w : World) (h : (SetGain drv v w).1 = false) :
    (SetGain drv v w).2.cam.store = w.cam.store := by
  revert h
  unfold SetGain; dsimp only
  split_ifs <;> first | (intro _; rfl) | (intro h; exact absurd h (by simp))

theorem SetGain_store_of_true (v : F32) (w : World) (h : (SetGain drv v w).1 = true) :
    (SetGain drv v w).2.cam.store = { w.cam.store with gain := v } := by
  revert h
  unfold SetGain; dsimp only
  split_ifs <;> first | (intro _; rfl) | (intro h; exact absurd h (by simp))

theorem SetFrameRate_isOpen (v : F32) (w : World) :
    (SetFrameRate drv v w).2.cam.m_isOpen = w.cam.m_isOpen := by
  unfold SetFrameRate; dsimp only
  split_ifs <;> rfl

theorem SetFrameRate_handle (v : F32) (w : World) :
    (SetFrameRate drv v w).2.cam.m_handle = w.cam.m_handle := by
  unfold SetFrameRate; dsimp only
  split_ifs <;> rfl

theorem SetFrameRate_store_of_false (v : F32) (w : World)
    (h : (SetFrameRate drv v w).1 = false) :
    (SetFrameRate drv v w).2.cam.store = w.cam.store := by
  revert h
  unfold SetFrameRate; dsimp only
  split_ifs <;> first | (intro _; rfl) | (intro h; exact absurd h (by simp))

theorem SetFrameRate_store_of_true (v : F32) (w : World)
    (h : (SetFrameRate drv v w).1 = true) :
    (SetFrameRate drv v w).2.cam.store = { w.cam.store with frameRate := v } := by
  revert h
  unfold SetFrameRate; dsimp only
  split_ifs <;> first | (intro _; rfl) | (intro h; exact absurd h (by simp))

theorem SetPixelFormat_isOpen (v : Nat) (w : World) :
    (SetPixelFormat drv v w).2.cam.m_isOpen = w.cam.m_isOpen := by
  unfold SetPixelFormat; dsimp only
  split_ifs <;> rfl

theorem SetPixelFormat_handle (v : Nat) (w : World) :
    (SetPixelFormat drv v w).2.cam.m_handle = w.cam.m_handle := by
  unfold SetPixelFormat; dsimp only
  split_ifs <;> rfl

theorem SetPixelFormat_store_of_false (v : Nat) (w : World)
    (h : (SetPixelFormat drv v w).1 = false) :
    (SetPixelFormat drv v w).2.cam.store = w.cam.store := by
  revert h
  unfold SetPixelFormat; dsimp only
  split_ifs <;> first | (intro _; rfl) | (intro h; exact absurd h (by simp))

theorem SetPixelFormat_store_of_true (v : Nat) (w : World)
    (h : (SetPixelFormat drv v w).1 = true) :
    (SetPixelFormat drv v w).2.cam.store = { w.cam.store with pixelFormat := v } := by
  revert h
  unfold SetPixelFormat; dsimp only
  split_ifs <;> first | (intro _; rfl) | (intro h; exact absurd h (by simp))

theorem SetTriggerMode_isOpen (v : Bool) (w : World) :
    (SetTriggerMode drv v w).2.cam.m_isOpen = w.cam.m_isOpen := by
  unfold SetTriggerMode; dsimp only
  split_ifs <;> rfl

theorem SetTriggerMode_handle (v : Bool) (w : World) :
    (SetTriggerMode drv v w).2.cam.m_handle = w.cam.m_handle := by
  unfold SetTriggerMode; dsimp only
  split_ifs <;> rfl

theorem SetTriggerMode_store_of_false (v : Bool) (w : World)
    (h : (SetTriggerMode drv v w).1 = false) :
    (SetTriggerMode drv v w).2.cam.store = w.cam.store := by
  revert h
  unfold SetTriggerMode; dsimp only
  split_ifs <;> first | (intro _; rfl) | (intro h; exact absurd h (by simp))

theorem SetTriggerMode_store_of_true (v : Bool) (w : World)
    (h : (SetTriggerMode drv v w).1 = true) :
    (SetTriggerMode drv v w).2.cam.store = { w.cam.store with trigger := v } := by
  revert h
  unfold SetTriggerMode; dsimp only
  split_ifs <;> first | (intro _; rfl) | (intro h; exact absurd h (by simp))

theorem SetExposureTime_store_self (w : World) :
    (SetExposureTime drv w.cam.m_savedExposure w).2.cam.store = w.cam.store := by
  cases h : (SetExposureTime drv w.cam.m_savedExposure w).1
  · exact SetExposureTime_store_of_false drv _ w h
  · rw [SetExposureTime_store_of_true drv _ w h]; rfl

theorem SetGain_store_self (w : World) :
    (SetGain drv w.cam.m_savedGain w).2.cam.store = w.cam.store := by
  cases h : (SetGain drv w.cam.m_savedGain w).1
  · exact SetGain_store_of_false drv _ w h
  · rw [SetGain_store_of_true drv _ w h]; rfl

theorem SetFrameRate_store_self (w : World) :
    (SetFrameRate drv w.cam.m_savedFrameRate w).2.cam.store = w.cam.store := by
  cases h : (SetFrameRate drv w.cam.m_savedFrameRate w).1
  · exact SetFrameRate_store_of_false drv _ w h
  · rw [SetFrameRate_store_of_true drv _ w h]; rfl

theorem SetPixelFormat_store_self (w : World) :
    (SetPixelFormat drv w.cam.m_savedPixelFormat w).2.cam.store = w.cam.store := by
  cases h : (SetPixelFormat drv w.cam.m_savedPixelFormat w).1
  · exact SetPixelFormat_store_of_false drv _ w h
  · rw [SetPixelFormat_store_of_true drv _ w h]; rfl

theorem SetTriggerMode_store_self (w : World) :
    (SetTriggerMode drv w.cam.m_savedTrigger w).2.cam.store = w.cam.store := by
  cases h : (SetTriggerMode drv w.cam.m_savedTrigger w).1
  · exact SetTriggerMode_store_of_false drv _ w h
  · rw [SetTriggerMode_store_of_true drv _ w h]; rfl

theorem ReconnectRestore_store (w : World) : (ReconnectRestore drv w).cam.store = w.cam.store := by
  unfold ReconnectRestore; dsimp only
  rw [SetTriggerMode_store_self]
  have e1 : (if w.cam.m_savedExposure.gtZero = true then
      (SetExposureTime drv w.cam.m_savedExposure w).2 else w).cam.store = w.cam.store := by
    split_ifs
    · exact SetExposureTime_store_self drv w
    · rfl
  generalize (if w.cam.m_savedExposure.gtZero = true then
      (SetExposureTime drv w.cam.m_savedExposure w).2 else w) = w1 at e1 ⊢
  have e2 : (if w1.cam.m_savedGain.gtZero = true then
      (SetGain drv w1.cam.m_savedGain w1).2 else w1).cam.store = w1.cam.store := by
    split_ifs
    · exact SetGain_store_self drv w1
    · rfl
  generalize (if w1.cam.m_savedGain.gtZero = true then
      (SetGain drv w1.cam.m_savedGain w1).2 else w1) = w2 at e2 ⊢
  have e3 : (if w2.cam.m_savedFrameRate.gtZero = true then
      (SetFrameRate drv w2.cam.m_savedFrameRate w2).2 else w2).cam.store = w2.cam.store := by
    split_ifs
    · exact SetFrameRate_store_self drv w2
    · rfl
  generalize (if w2.cam.m_savedFrameRate.gtZero = true then
      (SetFrameRate drv w2.cam.m_savedFrameRate w2).2 else w2) = w3 at e3 ⊢
  have e4 : (if 0 < w3.cam.m_savedPixelFormat then
      (SetPixelFormat drv w3.cam.m_savedPixelFormat w3).2 else w3).cam.store = w3.cam.store := by
    split_ifs
    · exact SetPixelFormat_store_self drv w3
    · rfl
  rw [e4, e3, e2, e1]

theorem ReconnectRestore_isOpen (w : World) :
    (ReconnectRestore drv w).cam.m_isOpen = w.cam.m_isOpen := by
  unfold ReconnectRestore; dsimp only
  rw [SetTriggerMode_isOpen]
  repeat (first
    | (rw [apply_ite World.cam, apply_ite HikCamera.m_isOpen])
    | rw [SetPixelFormat_isOpen] | rw [SetFrameRate_isOpen]
    | rw [SetGain_isOpen] | rw [SetExposureTime_isOpen] | rw [ite_self])

theorem ReconnectRestore_handle (w : World) :
    (ReconnectRestore drv w).cam.m_handle = w.cam.m_handle := by
  unfold ReconnectRestore; dsimp only
  rw [SetTriggerMode_handle]
  repeat (first
    | (rw [apply_ite World.cam, apply_ite HikCamera.m_handle])
    | rw [SetPixelFormat_handle] | rw [SetFrameRate_handle]
    | rw [SetGain_handle] | rw [SetExposureTime_handle] | rw [ite_self])

theorem ReconnectPrepare_store (d a : Int) (w : World) :
    (ReconnectPrepare drv d a w).cam.store = w.cam.store := by
  unfold ReconnectPrepare; dsimp only [World.note]
  split_ifs <;> simp only [Close_store, StopGrabbing_store]

theorem ReconnectPrepare_isOpen (d a : Int) (w : World) :
    (ReconnectPrepare drv d a w).cam.m_isOpen = false := by
  unfold ReconnectPrepare; dsimp only [World.note]
  split_ifs with h1 h2 h2
  · exact Close_isOpen drv _
  · simpa using h2
  · exact Close_isOpen drv _
  · simpa using h2

theorem ReconnectPrepare_handle (d a : Int) (w : World) (hw : HandleInv w) :
    (ReconnectPrepare drv d a w).cam.m_handle = none := by
  unfold ReconnectPrepare; dsimp only [World.note]
  split_ifs with h1 h2 h2
  · exact Close_handle drv _ (fun h => by rw [StopGrabbing_handle]; exact hw (by rwa [StopGrabbing_isOpen] at h))
  · rw [StopGrabbing_handle]; exact hw (by rw [StopGrabbing_isOpen] at h2; simpa using h2)
  · exact Close_handle drv _ hw
  · exact hw (by simpa using h2)

theorem ReconnectPrepare_closed (d a : Int) (w : World) (hw : HandleInv w) :
    Closed (ReconnectPrepare drv d a w) :=
  ⟨ReconnectPrepare_isOpen drv d a w, ReconnectPrepare_handle drv d a w hw⟩

theorem ReconnectAttempt_store (index : Nat) (d a : Int) (w : World) :
    (ReconnectAttempt drv index d a w).2.cam.store = w.cam.store := by
  unfold ReconnectAttempt; dsimp only
  split_ifs <;>
    simp only [Close_store, StartGrabbing_store, ReconnectRestore_store, Open_store,
      ReconnectPrepare_store]

theorem ReconnectAttempt_false_closed (index : Nat) (d a : Int) (w : World) (hw : HandleInv w)
    (h : (ReconnectAttempt drv index d a w).1 = false) :
    Closed (ReconnectAttempt drv index d a w).2 := by
  have hp := ReconnectPrepare_closed drv d a w hw
  revert h
  unfold ReconnectAttempt; dsimp only
  split_ifs with h1 h2
  · intro _; exact Open_false_closed drv index _ hp h1
  · intro _
    refine Close_closed drv _ ?_
    intro hc
    rw [StartGrabbing_handle, ReconnectRestore_handle]
    rw [StartGrabbing_isOpen, ReconnectRestore_isOpen] at hc
    exact Open_handleInv drv index _ (fun _ => hp.2) hc
  · intro h; exact absurd h (by simp)

theorem ReconnectAttempt_true_isOpen (index : Nat) (d a : Int) (w : World)
    (h : (ReconnectAttempt drv index d a w).1 = true) :
    (ReconnectAttempt drv index d a w).2.cam.m_isOpen = true := by
  revert h
  unfold ReconnectAttempt; dsimp only
  split_ifs with h1 h2
  · intro h; exact absurd h (by simp)
  · intro h; exact absurd h (by simp)
  · intro _
    rw [StartGrabbing_isOpen, ReconnectRestore_isOpen]
    exact Open_true_isOpen drv index _ (by simpa using h1)

theorem ReconnectAttempt_handleInv (index : Nat) (d a : Int) (w : World) (hw : HandleInv w) :
    HandleInv (ReconnectAttempt drv index d a w).2 := by
  cases h : (ReconnectAttempt drv index d a w).1
  · intro _; exact (ReconnectAttempt_false_closed drv index d a w hw h).2
  · intro hc; rw [ReconnectAttempt_true_isOpen drv index d a w h] at hc
    exact absurd hc (by simp)

theorem ReconnectLoop_store (index : Nat) (N d : Int) (fuel : Nat) :
    ∀ (a : Int) (w : World) (r : Bool) (w' : World),
      ReconnectLoop drv index N d fuel a w = some (r, w') → w'.cam.store = w.cam.store := by
  induction fuel with
  | zero => intro a w r w' h; simp [ReconnectLoop] at h
  | succ n ih =>
    intro a w r w' h
    unfold ReconnectLoop at h
    dsimp only at h
    split_ifs at h with h1 h2
    · simp only [Option.some.injEq, Prod.mk.injEq] at h
      rw [← h.2]; exact ReconnectAttempt_store drv index d a w
    · rw [ih _ _ _ _ h]; exact ReconnectAttempt_store drv index d a w
    · simp only [Option.some.injEq, Prod.mk.injEq] at h
      rw [← h.2]

theorem ReconnectLoop_handleInv (index : Nat) (N d : Int) (fuel : Nat) :
    ∀ (a : Int) (w : World) (r : Bool) (w' : World), HandleInv w →
      ReconnectLoop drv index N d fuel a w = some (r, w') → HandleInv w' := by
  induction fuel with
  | zero => intro a w r w' _ h; simp [ReconnectLoop] at h
  | succ n ih =>
    intro a w r w' hw h
    unfold ReconnectLoop at h
    dsimp only at h
    split_ifs at h with h1 h2
    · simp only [Option.some.injEq, Prod.mk.injEq] at h
      rw [← h.2]; exact ReconnectAttempt_handleInv drv index d a w hw
    · exact ih _ _ _ _ (ReconnectAttempt_handleInv drv index d a w hw) h
    · simp only [Option.some.injEq, Prod.mk.injEq] at h
      rw [← h.2]; exact hw

theorem ReconnectLoop_false_closed (index : Nat) (N d : Int) (fuel : Nat) :
    ∀ (a : Int) (w : World) (w' : World), Closed w →
      ReconnectLoop drv index N d fuel a w = some (false, w') → Closed w' := by
  induction fuel with
  | zero => intro a w w' _ h; simp [ReconnectLoop] at h
  | succ n ih =>
    intro a w w' hw h
    unfold ReconnectLoop at h
    dsimp only at h
    split_ifs at h with h1 h2
    · simp at h
    · exact ih _ _ _
        (ReconnectAttempt_false_closed drv index d a w (fun _ => hw.2) (by simpa using h2)) h
    · simp only [Option.some.injEq, Prod.mk.injEq, true_and] at h
      rw [← h]; exact hw

/-- With a budget below `2147483647` the loop of `Reconnect` ends: entered at
counter `a`, it returns within `N + 1 - a` passes (within one pass when
`a` already exceeds `N`). -/
theorem ReconnectLoop_returns (index : Nat) (N d : Int) (hN : N < 2147483647) (fuel : Nat) :
    ∀ (a : Int) (w : World), -2147483648 ≤ a → (N + 1 - a).toNat < fuel →
      ∃ r w', ReconnectLoop drv index N d fuel a w = some (r, w') := by
  induction fuel with
  | zero => intro a w _ h; omega
  | succ n ih =>
    intro a w ha hf
    unfold ReconnectLoop
    dsimp only
    split_ifs with h1 h2
    · exact ⟨_, _, rfl⟩
    · rw [wrapInt32_of_range _ (by omega) (by omega)]
      exact ih _ _ (by omega) (by omega)
    · exact ⟨_, _, rfl⟩

theorem GrabImage_isOpen (im : ImageData) (t : Nat) (w : World) :
    (GrabImage drv im t w).2.2.cam.m_isOpen = w.cam.m_isOpen := by
  unfold GrabImage; dsimp only
  split_ifs <;> rfl

theorem GrabImage_handle (im : ImageData) (t : Nat) (w : World) :
    (GrabImage drv im t w).2.2.cam.m_handle = w.cam.m_handle := by
  unfold GrabImage; dsimp only
  split_ifs <;> rfl

theorem GrabImageBGR_isOpen (im : ImageData) (t : Nat) (w : World) :
    (GrabImageBGR drv im t w).2.2.cam.m_isOpen = w.cam.m_isOpen := by
  unfold GrabImageBGR; dsimp only
  split_ifs <;> rfl

theorem GrabImageBGR_handle (im : ImageData) (t : Nat) (w : World) :
    (GrabImageBGR drv im t w).2.2.cam.m_handle = w.cam.m_handle := by
  unfold GrabImageBGR; dsimp only
  split_ifs <;> rfl

theorem SetPacketSize_isOpen (v : Nat) (w : World) :
    (SetPacketSize drv v w).2.cam.m_isOpen = w.cam.m_isOpen := by
  unfold SetPacketSize; dsimp only
  split_ifs <;> rfl

theorem SetPacketSize_handle (v : Nat) (w : World) :
    (SetPacketSize drv v w).2.cam.m_handle = w.cam.m_handle := by
  unfold SetPacketSize; dsimp only
  split_ifs <;> rfl

theorem SetPacketDelay_isOpen (v : Nat) (w : World) :
    (SetPacketDelay drv v w).2.cam.m_isOpen = w.cam.m_isOpen := by
  unfold SetPacketDelay; dsimp only
  split_ifs <;> rfl

theorem SetPacketDelay_handle (v : Nat) (w : World) :
    (SetPacketDelay drv v w).2.cam.m_handle = w.cam.m_handle := by
  unfold SetPacketDelay; dsimp only
  split_ifs <;> rfl

theorem TriggerSoftware_isOpen (w : World) :
    (TriggerSoftware drv w).2.cam.m_isOpen = w.cam.m_isOpen := by
  unfold TriggerSoftware; dsimp only
  split_ifs <;> rfl

theorem TriggerSoftware_handle (w : World) :
    (TriggerSoftware drv w).2.cam.m_handle = w.cam.m_handle := by
  unfold TriggerSoftware; dsimp only
  split_ifs <;> rfl

theorem OpenBySerialNumber_handleInv (sn : String) (w : World) (hw : HandleInv w) :
    HandleInv (OpenBySerialNumber drv sn w).2 := by
  unfold OpenBySerialNumber; dsimp only
  split_ifs with h1 h2
  · exact hw
  · exact hw
  · split
    · exact hw
    · exact Open_handleInv drv _ _ hw

/-- An operation that changes neither `m_isOpen` nor `m_handle` keeps
`HandleInv`. -/
theorem HandleInv_of_same {w w' : World} (hw : HandleInv w)
    (h1 : w'.cam.m_isOpen = w.cam.m_isOpen) (h2 : w'.cam.m_handle = w.cam.m_handle) :
    HandleInv w' := by
  intro h; rw [h2]; exact hw (by rw [← h1]; exact h)

end frame

/-- Every reachable session holds a handle only while it is open. -/
theorem Reachable.handleInv {w : World} (h : Reachable w) : HandleInv w := by
  induction h with
  | init => intro _; rfl
  | Open drv index _ ih => exact Open_handleInv drv index _ ih
  | OpenBySerialNumber drv sn _ ih => exact OpenBySerialNumber_handleInv drv sn _ ih
  | Close drv _ ih => intro _; exact Close_handle drv _ ih
  | StartGrabbing drv _ ih =>
    exact HandleInv_of_same ih (StartGrabbing_isOpen drv _) (StartGrabbing_handle drv _)
  | StopGrabbing drv _ ih =>
    exact HandleInv_of_same ih (StopGrabbing_isOpen drv _) (StopGrabbing_handle drv _)
  | GrabImage drv im t _ ih =>
    exact HandleInv_of_same ih (GrabImage_isOpen drv im t _) (GrabImage_handle drv im t _)
  | GrabImageBGR drv im t _ ih =>
    exact HandleInv_of_same ih (GrabImageBGR_isOpen drv im t _) (GrabImageBGR_handle drv im t _)
  | SetExposureTime drv v _ ih =>
    exact HandleInv_of_same ih (SetExposureTime_isOpen drv v _) (SetExposureTime_handle drv v _)
  | SetGain drv v _ ih =>
    exact HandleInv_of_same ih (SetGain_isOpen drv v _) (SetGain_handle drv v _)
  | SetFrameRate drv v _ ih =>
    exact HandleInv_of_same ih (SetFrameRate_isOpen drv v _) (SetFrameRate_handle drv v _)
  | SetPixelFormat drv v _ ih =>
    exact HandleInv_of_same ih (SetPixelFormat_isOpen drv v _) (SetPixelFormat_handle drv v _)
  | SetTriggerMode drv v _ ih =>
    exact HandleInv_of_same ih (SetTriggerMode_isOpen drv v _) (SetTriggerMode_handle drv v _)
  | SetPacketSize drv v _ ih =>
    exact HandleInv_of_same ih (SetPacketSize_isOpen drv v _) (SetPacketSize_handle drv v _)
  | SetPacketDelay drv v _ ih =>
    exact HandleInv_of_same ih (SetPacketDelay_isOpen drv v _) (SetPacketDelay_handle drv v _)
  | TriggerSoftware drv _ ih =>
    exact HandleInv_of_same ih (TriggerSoftware_isOpen drv _) (TriggerSoftware_handle drv _)
  | Reconnect drv index N d fuel _ hr ih =>
    unfold hik.Reconnect at hr
    refine ReconnectLoop_handleInv drv index N d fuel 1 _ _ _ ?_ hr
    exact fun h => ih h

/-- Every public operation other than `Close` and `Reconnect` keeps
"grabbing implies open"; `Close` keeps it unless its driver stop call fails
on a grabbing session. -/
theorem GrabbingInv_preserved (drv : Driver) (w : World) (hw : GrabbingInv w) :
    (∀ index, GrabbingInv (Open drv index w).2) ∧
    (∀ sn, GrabbingInv (OpenBySerialNumber drv sn w).2) ∧
    GrabbingInv (StartGrabbing drv w).2 ∧ GrabbingInv (StopGrabbing drv w).2 ∧
    (∀ im t, GrabbingInv (GrabImage drv im t w).2.2) ∧
    (∀ im t, GrabbingInv (GrabImageBGR drv im t w).2.2) ∧
    (∀ v, GrabbingInv (SetExposureTime drv v w).2) ∧ (∀ v, GrabbingInv (SetGain drv v w).2) ∧
    (∀ v, GrabbingInv (SetFrameRate drv v w).2) ∧ (∀ v, GrabbingInv (SetPixelFormat drv v w).2) ∧
    (∀ v, GrabbingInv (SetTriggerMode drv v w).2) ∧ (∀ v, GrabbingInv (SetPacketSize drv v w).2) ∧
    (∀ v, GrabbingInv (SetPacketDelay drv v w).2) ∧ GrabbingInv (TriggerSoftware drv w).2 ∧
    ((w.cam.m_isGrabbing = true → (drv w.calls).status = MV_OK) → GrabbingInv (Close drv w).2) := by
  have hOpen : ∀ (v : World) (index : Nat), GrabbingInv v → GrabbingInv (Open drv index v).2 := by
    intro v index hv
    unfold GrabbingInv at hv ⊢
    unfold Open; dsimp only
    split_ifs <;>
      simp_all [World.tick, World.note, World.SetError, World.setLastError]
  refine ⟨fun index => hOpen w index hw, ?_, ?_, ?_, ?_, ?_, ?_, ?_, ?_, ?_, ?_, ?_, ?_, ?_, ?_⟩
  · intro sn
    unfold OpenBySerialNumber; dsimp only
    split_ifs
    · exact hw
    · exact hw
    · split
      · exact hw
      · exact hOpen _ _ hw
  all_goals unfold GrabbingInv at hw
  · unfold GrabbingInv StartGrabbing; dsimp only
    split_ifs <;> simp_all [World.tick, World.SetError, World.setLastError]
  · unfold GrabbingInv StopGrabbing; dsimp only
    split_ifs <;> simp_all [World.tick, World.SetError, World.setLastError]
  · intro im t
    unfold GrabbingInv GrabImage; dsimp only
    split_ifs <;> simp_all [World.tick, World.SetError, World.setLastError]
  · intro im t
    unfold GrabbingInv GrabImageBGR; dsimp only
    split_ifs <;> simp_all [World.tick, World.note, World.SetError, World.setLastError]
  · intro v
    unfold GrabbingInv SetExposureTime; dsimp only
    split_ifs <;> simp_all [World.tick, World.SetError, World.setLastError]
  · intro v
    unfold GrabbingInv SetGain; dsimp only
    split_ifs <;> simp_all [World.tick, World.SetError, World.setLastError]
  · intro v
    unfold GrabbingInv SetFrameRate; dsimp only
    split_ifs <;> simp_all [World.tick, World.SetError, World.setLastError]
  · intro v
    unfold GrabbingInv SetPixelFormat; dsimp only
    split_ifs <;> simp_all [World.tick, World.SetError, World.setLastError]
  · intro v
    unfold GrabbingInv SetTriggerMode; dsimp only
    split_ifs <;> simp_all [World.tick, World.SetError, World.setLastError]
  · intro v
    unfold GrabbingInv SetPacketSize; dsimp only
    split_ifs <;> simp_all [World.tick, World.SetError, World.setLastError]
  · intro v
    unfold GrabbingInv SetPacketDelay; dsimp only
    split_ifs <;> simp_all [World.tick, World.SetError, World.setLastError]
  · unfold GrabbingInv TriggerSoftware; dsimp only
    split_ifs <;> simp_all [World.tick, World.SetError, World.setLastError]
  · intro hstop
    unfold GrabbingInv Close StopGrabbing; dsimp only
    split_ifs <;> simp_all [World.tick, World.SetError, World.setLastError]

/-! ## Settled claims -/

/-- C1 (the code departs from the claim): the session reached by `Open(0)`,
`StartGrabbing()` and a `Close()` whose driver stop call fails is grabbing
but not open, so `isGrabbing` implies `isOpen` is broken by `Close`. -/
theorem C1_close_after_failed_stop_is_grabbing_but_closed :
    Reachable staleGrabbing ∧ staleGrabbing.cam.m_isGrabbing = true ∧
      staleGrabbing.cam.m_isOpen = false ∧ staleGrabbing.cam.m_handle = none :=
  ⟨Reachable.Close _ (Reachable.StartGrabbing _ (Reachable.Open _ 0 Reachable.init)),
    by decide, by decide, by decide⟩

/-- C2 (the code departs from the claim): on a session that is open at entry
`Reconnect` returns failure at once, whatever the attempt budget: it issues no
driver call, logs no `Open` attempt and no sleep, and leaves the session
open; only `m_deviceIndex` is written. -/
theorem C2_reconnect_on_open_session_does_nothing (drv : Driver) (index : Nat)
    (maxRetries retryDelayMs : Int) (fuel : Nat) (w : World) (h : w.cam.m_isOpen = true) :
    Reconnect drv index maxRetries retryDelayMs (fuel + 1) w =
      some (false, { w with cam := { w.cam with m_deviceIndex := index } }) := by
  unfold Reconnect ReconnectLoop
  rw [if_neg]
  simp [h]

/-- C2 at a concrete input: `Reconnect(0, 3, 100)` on the session opened by
`Open(0)` returns failure and the session is unchanged, still open. -/
theorem C2_reconnect_on_open_session_does_nothing_witness :
    openSession.cam.m_isOpen = true ∧
      Reconnect okDriver 0 3 100 4 openSession = some (false, openSession) :=
  ⟨by decide, C2_reconnect_on_open_session_does_nothing okDriver 0 3 100 3 openSession (by decide)⟩

/-- C3, refuted as stated: with an attempt budget of zero `Reconnect` on an
open session returns failure and the session is still open. -/
theorem C3_reconnect_failure_on_open_session_not_closed :
    Reconnect okDriver 0 0 100 1 openSession = some (false, openSession) ∧
      ¬ Closed openSession :=
  ⟨by rfl, by decide⟩

/-- C3, amended: for a session that is Closed at entry, every driver
behaviour and every attempt budget, whenever `Reconnect` returns failure the
session is Closed on return (not open, handle null); and `Reconnect` does
return when the budget is below `2147483647` and more loop passes than the
budget are allowed. -/
theorem C3_reconnect_failure_leaves_closed (drv : Driver) (index : Nat)
    (maxRetries retryDelayMs : Int) (fuel : Nat) (w : World) (hw : Closed w) :
    (∀ w' : World, Reconnect drv index maxRetries retryDelayMs fuel w = some (false, w') →
      w'.cam.m_isOpen = false ∧ w'.cam.m_handle = none) ∧
    (maxRetries < 2147483647 → maxRetries.toNat < fuel →
      ∃ r w', Reconnect drv index maxRetries retryDelayMs fuel w = some (r, w')) := by
  constructor
  · intro w' h
    unfold Reconnect at h
    refine ReconnectLoop_false_closed drv index maxRetries retryDelayMs fuel 1 _ w' ?_ h
    exact ⟨hw.1, hw.2⟩
  · intro hN hf
    exact ReconnectLoop_returns drv index maxRetries retryDelayMs hN fuel 1 _ (by decide)
      (by omega)

/-- C3 amended at a concrete input: two attempts against a driver that always
fails, starting from a fresh session. -/
theorem C3_reconnect_failure_leaves_closed_witness :
    Closed World.init ∧
      Reconnect errDriver 0 2 100 3 World.init =
        some (false, attemptState errDriver 0 100 2 World.init) ∧
      (attemptState errDriver 0 100 2 World.init).cam.m_isOpen = false ∧
      (attemptState errDriver 0 100 2 World.init).cam.m_handle = none :=
  ⟨by decide, by rfl,
    (C3_reconnect_failure_leaves_closed errDriver 0 2 100 3 World.init (by decide)).1
      (attemptState errDriver 0 100 2 World.init) (by rfl)⟩

/-- C5: for each of the five storing setters, in every session state, for
every argument and every driver behaviour: a failing call leaves the whole
Parameter Store unchanged, and a succeeding call sets its own store field to
exactly the value passed and leaves the other four fields unchanged. -/
theorem C5_setters_update_store_only_on_success (drv : Driver) (w : World)
    (exposureTime gain fps : F32) (pixelFormat : Nat) (enable : Bool) :
    (((SetExposureTime drv exposureTime w).1 = false →
        (SetExposureTime drv exposureTime w).2.cam.store = w.cam.store) ∧
      ((SetExposureTime drv exposureTime w).1 = true →
        (SetExposureTime drv exposureTime w).2.cam.store =
          { w.cam.store with exposure := exposureTime })) ∧
    (((SetGain drv gain w).1 = false → (SetGain drv gain w).2.cam.store = w.cam.store) ∧
      ((SetGain drv gain w).1 = true →
        (SetGain drv gain w).2.cam.store = { w.cam.store with gain := gain })) ∧
    (((SetFrameRate drv fps w).1 = false →
        (SetFrameRate drv fps w).2.cam.store = w.cam.store) ∧
      ((SetFrameRate drv fps w).1 = true →
        (SetFrameRate drv fps w).2.cam.store = { w.cam.store with frameRate := fps })) ∧
    (((SetPixelFormat drv pixelFormat w).1 = false →
        (SetPixelFormat drv pixelFormat w).2.cam.store = w.cam.store) ∧
      ((SetPixelFormat drv pixelFormat w).1 = true →
        (SetPixelFormat drv pixelFormat w).2.cam.store =
          { w.cam.store with pixelFormat := pixelFormat })) ∧
    (((SetTriggerMode drv enable w).1 = false →
        (SetTriggerMode drv enable w).2.cam.store = w.cam.store) ∧
      ((SetTriggerMode drv enable w).1 = true →
        (SetTriggerMode drv enable w).2.cam.store = { w.cam.store with trigger := enable })) :=
  ⟨⟨SetExposureTime_store_of_false drv _ w, SetExposureTime_store_of_true drv _ w⟩,
    ⟨SetGain_store_of_false drv _ w, SetGain_store_of_true drv _ w⟩,
    ⟨SetFrameRate_store_of_false drv _ w, SetFrameRate_store_of_true drv _ w⟩,
    ⟨SetPixelFormat_store_of_false drv _ w, SetPixelFormat_store_of_true drv _ w⟩,
    ⟨SetTriggerMode_store_of_false drv _ w, SetTriggerMode_store_of_true drv _ w⟩⟩

/-- C6: whenever `Reconnect` returns, with either result, from any session,
under any driver behaviour (replayed setters may fail) and with any attempt
budget, the Parameter Store is the one the session had before the call; and
`Reconnect` does return when the budget is below `2147483647` and more loop
passes than the budget are allowed. -/
theorem C6_reconnect_preserves_store (drv : Driver) (index : Nat)
    (maxRetries retryDelayMs : Int) (fuel : Nat) (w : World) :
    (∀ (r : Bool) (w' : World),
      Reconnect drv index maxRetries retryDelayMs fuel w = some (r, w') →
      w'.cam.store = w.cam.store) ∧
    (maxRetries < 2147483647 → maxRetries.toNat < fuel →
      ∃ r w', Reconnect drv index maxRetries retryDelayMs fuel w = some (r, w')) := by
  constructor
  · intro r w' h
    unfold Reconnect at h
    exact (ReconnectLoop_store drv index maxRetries retryDelayMs fuel 1 _ r w' h).trans rfl
  · intro hN hf
    exact ReconnectLoop_returns drv index maxRetries retryDelayMs hN fuel 1 _ (by decide)
      (by omega)

/-- C6 at the scenario of the specification: after `Open(0)`,
`SetExposureTime(5000)`, `Close()`, the call `Reconnect(0, 3, 100)` succeeds
on its first attempt, the stored exposure is applied again during it, and
the store still reports exposure 5000. -/
theorem C6_reconnect_preserves_store_witness :
    Reconnect okDriver 0 3 100 4 configuredClosed =
        some (true, attemptState okDriver 0 100 1 configuredClosed) ∧
      (attemptState okDriver 0 100 1 configuredClosed).cam.store.exposure = f5000 ∧
      Event.SetFloatValue (some 7) "ExposureTime" f5000 ∈
        (attemptState okDriver 0 100 1 configuredClosed).log.drop configuredClosed.log.length :=
  ⟨by rfl, by
    rw [(C6_reconnect_preserves_store okDriver 0 3 100 4 configuredClosed).1 true _ (by rfl)]
    decide, by decide⟩

/-- C7: on every reachable session and under every driver behaviour `Close`
returns success and leaves the handle null and the session not open; a second
`Close` right after it, under any driver behaviour, returns success and
leaves the whole state as it is: no driver call, no field changed, the
handle still null. -/
theorem C7_close_idempotent (drv1 drv2 : Driver) (w : World) (hw : Reachable w) :
    (Close drv1 w).1 = true ∧ (Close drv1 w).2.cam.m_handle = none ∧
      (Close drv1 w).2.cam.m_isOpen = false ∧
      Close drv2 (Close drv1 w).2 = (true, (Close drv1 w).2) :=
  ⟨Close_fst drv1 w, Close_handle drv1 w hw.handleInv, Close_isOpen drv1 w,
    Close_of_not_open drv2 _ (Close_isOpen drv1 w)⟩

/-- C7 at a concrete input: closing a grabbing session while the driver
refuses to stop, then closing again. -/
theorem C7_close_idempotent_witness :
    (Close stopFails grabbingSession).1 = true ∧
      (Close stopFails grabbingSession).2.cam.m_handle = none ∧
      (Close stopFails grabbingSession).2.cam.m_isOpen = false ∧
      Close errDriver (Close stopFails grabbingSession).2 =
        (true, (Close stopFails grabbingSession).2) :=
  C7_close_idempotent stopFails errDriver grabbingSession
    (Reachable.StartGrabbing _ (Reachable.Open _ 0 Reachable.init))

/-- `GrabImageBGR` never lowers `m_bufferSize`. -/
theorem GrabImageBGR_bufferSize_le (drv : Driver) (im : ImageData) (t : Nat) (w : World) :
    w.cam.m_bufferSize ≤ (GrabImageBGR drv im t w).2.2.cam.m_bufferSize := by
  unfold GrabImageBGR; dsimp only
  split_ifs with h1 h2 h3 h4 h5 h6 h7 h8 <;>
    first
    | exact le_refl _
    | exact le_of_lt (by simpa [World.tick] using ‹(w.tick _).cam.m_bufferSize < _›)

/-- C8: along every sequence of `GrabImageBGR` calls on one session, with any
arguments and any driver responses (frame sizes, pixel formats, outcomes),
the capacity `m_bufferSize` after each call is at least the capacity before
that call. -/
theorem C8_conversion_buffer_capacity_monotone (drv : Driver)
    (calls : List (ImageData × Nat)) (w : World) :
    List.Chain (fun before after => before ≤ after) w.cam.m_bufferSize
      (capacitiesAfter drv calls w) := by
  induction calls generalizing w with
  | nil => exact List.Chain.nil
  | cons c rest ih =>
    exact List.Chain.cons (GrabImageBGR_bufferSize_le drv c.1 c.2 w) (ih _)

/-- On a grabbing session a fetch that reports "no data" returns failure and
leaves the recorded last error as it was. -/
theorem GrabImage_observe_nodata (drv : Driver) (im : ImageData) (t : Nat) (w : World)
    (hg : w.cam.m_isGrabbing = true) (hn : (drv w.calls).status = MV_E_NODATA) :
    observe (GrabImage drv im t w) = (false, w.cam.m_lastError) := by
  have h0 : (drv w.calls).status ≠ MV_OK := by rw [hn]; decide
  unfold GrabImage observe; dsimp only
  rw [if_neg (by simp [hg]), if_pos h0, if_neg (by simp [hn])]
  rfl

/-- On a grabbing session a fetch that reports a hard error returns failure
and records the fetch-failure text with the status. -/
theorem GrabImage_observe_error (drv : Driver) (im : ImageData) (t : Nat) (w : World)
    (hg : w.cam.m_isGrabbing = true) (h0 : (drv w.calls).status ≠ MV_OK)
    (hn : (drv w.calls).status ≠ MV_E_NODATA) :
    observe (GrabImage drv im t w) =
      (false, errorText "Get image buffer failed" (drv w.calls).status) := by
  unfold GrabImage observe; dsimp only
  rw [if_neg (by simp [hg]), if_pos h0, if_pos hn]
  rfl

/-- The counterpart of `GrabImage_observe_nodata` for `GrabImageBGR`. -/
theorem GrabImageBGR_observe_nodata (drv : Driver) (im : ImageData) (t : Nat) (w : World)
    (hg : w.cam.m_isGrabbing = true) (hn : (drv w.calls).status = MV_E_NODATA) :
    observe (GrabImageBGR drv im t w) = (false, w.cam.m_lastError) := by
  have h0 : (drv w.calls).status ≠ MV_OK := by rw [hn]; decide
  unfold GrabImageBGR observe; dsimp only
  rw [if_neg (by simp [hg]), if_pos h0, if_neg (by simp [hn])]
  rfl

/-- The counterpart of `GrabImage_observe_error` for `GrabImageBGR`. -/
theorem GrabImageBGR_observe_error (drv : Driver) (im : ImageData) (t : Nat) (w : World)
    (hg : w.cam.m_isGrabbing = true) (h0 : (drv w.calls).status ≠ MV_OK)
    (hn : (drv w.calls).status ≠ MV_E_NODATA) :
    observe (GrabImageBGR drv im t w) =
      (false, errorText "Get image buffer failed" (drv w.calls).status) := by
  unfold GrabImageBGR observe; dsimp only
  rw [if_neg (by simp [hg]), if_pos h0, if_pos hn]
  rfl

/-- C9, refuted as stated: on the grabbing session that has just met the hard
fetch error `0x80000000`, a following "no data" and a following repetition
of that hard error give the caller the same return value and the same
last-error text, for `GrabImage` and for `GrabImageBGR`. -/
theorem C9_nodata_indistinguishable_after_hard_failure :
    afterHardFailure.cam.m_isGrabbing = true ∧
      observe (GrabImage nodataDriver ImageData.empty 1000 afterHardFailure) =
        observe (GrabImage errDriver ImageData.empty 1000 afterHardFailure) ∧
      observe (GrabImageBGR nodataDriver ImageData.empty 1000 afterHardFailure) =
        observe (GrabImageBGR errDriver ImageData.empty 1000 afterHardFailure) :=
  ⟨by decide, by decide, by decide⟩

/-- C9, amended: on a grabbing session, for `GrabImage` and `GrabImageBGR`
alike, a "no data" fetch returns failure and leaves the recorded last error
untouched, while a hard fetch failure returns failure and records
"Get image buffer failed (Error code: 0x..)" with its status; so the two
observable outcomes differ exactly when the last error recorded before the
call is not already that text. -/
theorem C9_nodata_versus_hard_failure (dN dE : Driver) (im : ImageData) (t : Nat) (w : World)
    (hg : w.cam.m_isGrabbing = true) (hN : (dN w.calls).status = MV_E_NODATA)
    (hE0 : (dE w.calls).status ≠ MV_OK) (hE : (dE w.calls).status ≠ MV_E_NODATA) :
    observe (GrabImage dN im t w) = (false, w.cam.m_lastError) ∧
      observe (GrabImage dE im t w) =
        (false, errorText "Get image buffer failed" (dE w.calls).status) ∧
      observe (GrabImageBGR dN im t w) = (false, w.cam.m_lastError) ∧
      observe (GrabImageBGR dE im t w) =
        (false, errorText "Get image buffer failed" (dE w.calls).status) ∧
      (observe (GrabImage dN im t w) ≠ observe (GrabImage dE im t w) ↔
        w.cam.m_lastError ≠ errorText "Get image buffer failed" (dE w.calls).status) ∧
      (observe (GrabImageBGR dN im t w) ≠ observe (GrabImageBGR dE im t w) ↔
        w.cam.m_lastError ≠ errorText "Get image buffer failed" (dE w.calls).status) := by
  have a := GrabImage_observe_nodata dN im t w hg hN
  have b := GrabImage_observe_error dE im t w hg hE0 hE
  have c := GrabImageBGR_observe_nodata dN im t w hg hN
  have d := GrabImageBGR_observe_error dE im t w hg hE0 hE
  refine ⟨a, b, c, d, ?_, ?_⟩
  · rw [a, b]; simp
  · rw [c, d]; simp

/-- C9 amended at a concrete input: on a grabbing session with no error
recorded yet, "no data" and the hard error `0x80000000` are told apart. -/
theorem C9_nodata_versus_hard_failure_witness :
    observe (GrabImage nodataDriver ImageData.empty 1000 grabbingOk) ≠
        observe (GrabImage errDriver ImageData.empty 1000 grabbingOk) ∧
      observe (GrabImageBGR nodataDriver ImageData.empty 1000 grabbingOk) ≠
        observe (GrabImageBGR errDriver ImageData.empty 1000 grabbingOk) :=
  have h := C9_nodata_versus_hard_failure nodataDriver errDriver ImageData.empty 1000 grabbingOk
    (by decide) (by decide) (by decide) (by decide)
  ⟨h.2.2.2.2.1.mpr (by decide), h.2.2.2.2.2.mpr (by decide)⟩

/-- The events `Open` logs before it creates a handle. -/
theorem Open_log_no_create (drv : Driver) (index : Nat) (w : World)
    (hw : w.cam.m_isOpen = false)
    (h : (drv w.calls).status ≠ MV_OK ∨ (drv w.calls).nDeviceNum ≤ index) :
    (Open drv index w).2.log = w.log ++ [.callOpen index, .EnumDevices] ∧
      (Open drv index w).1 = false := by
  unfold Open; dsimp only
  rw [if_neg (by simp [World.note, hw])]
  by_cases h1 : (drv w.calls).status ≠ MV_OK
  · rw [if_pos (by simpa [World.note] using h1)]
    simp [World.SetError, World.setLastError, World.tick, World.note]
  · have h2 : (drv w.calls).nDeviceNum ≤ index := h.resolve_left h1
    rw [if_neg (by simpa [World.note] using h1), if_pos (by simpa [World.note] using h2)]
    simp [World.SetError, World.setLastError, World.tick, World.note]

/-- The events `Open` logs when the device-open step fails: the handle just
created is handed to `MV_CC_DestroyHandle`. -/
theorem Open_log_rollback (drv : Driver) (index : Nat) (w : World)
    (hw : w.cam.m_isOpen = false) (h1 : (drv w.calls).status = MV_OK)
    (h2 : index < (drv w.calls).nDeviceNum) (h3 : (drv (w.calls + 1)).status = MV_OK)
    (h4 : (drv (w.calls + 2)).status ≠ MV_OK) :
    (Open drv index w).2.log = w.log ++
      [.callOpen index, .EnumDevices, .CreateHandle index,
        .OpenDevice (some (drv (w.calls + 1)).handle),
        .DestroyHandle (some (drv (w.calls + 1)).handle)] := by
  unfold Open; dsimp only
  rw [if_neg (by simp [World.note, hw]), if_neg (by simpa [World.note] using h1),
    if_neg (by simpa [World.note] using h2),
    if_neg (by simpa [World.note, World.tick] using h3),
    if_pos (by simpa [World.note, World.tick] using h4)]
  simp [World.SetError, World.setLastError, World.tick, World.note]

/-- C10: for a Closed session, every index and every driver behaviour, a
failing `Open` leaves the session Closed (not open, handle null) and leaves
no handle behind: the handles obtained and not yet released are the same as
before the call.  When the enumeration fails or the index is not below the
device count the only driver call is the enumeration, so no handle is
created (for instance index 0 against zero devices); when the device-open
step fails the handle just created is passed to `MV_CC_DestroyHandle`. -/
theorem C10_failed_open_leaves_closed (drv : Driver) (index : Nat) (w : World)
    (hw : Closed w) (h : (Open drv index w).1 = false) :
    (Open drv index w).2.cam.m_isOpen = false ∧ (Open drv index w).2.cam.m_handle = none ∧
      (Open drv index w).2.live = w.live ∧
      ((drv w.calls).status ≠ MV_OK ∨ (drv w.calls).nDeviceNum ≤ index →
        (Open drv index w).2.log = w.log ++ [.callOpen index, .EnumDevices]) ∧
      ((drv w.calls).status = MV_OK → index < (drv w.calls).nDeviceNum →
        (drv (w.calls + 1)).status = MV_OK → (drv (w.calls + 2)).status ≠ MV_OK →
        (Open drv index w).2.log = w.log ++
          [.callOpen index, .EnumDevices, .CreateHandle index,
            .OpenDevice (some (drv (w.calls + 1)).handle),
            .DestroyHandle (some (drv (w.calls + 1)).handle)]) :=
  ⟨(Open_false_closed drv index w hw h).1, (Open_false_closed drv index w hw h).2,
    Open_false_live drv index w hw.1 h,
    fun hc => (Open_log_no_create drv index w hw.1 hc).1,
    Open_log_rollback drv index w hw.1⟩

/-- C10 at the scenario of the specification: `Open(0)` against a device
directory with zero devices fails, the session stays Closed and the only
driver call is the enumeration. -/
theorem C10_failed_open_leaves_closed_witness :
    (Open noDevices 0 World.init).1 = false ∧
      (Open noDevices 0 World.init).2.cam.m_isOpen = false ∧
      (Open noDevices 0 World.init).2.cam.m_handle = none ∧
      (Open noDevices 0 World.init).2.live = [] ∧
      (Open noDevices 0 World.init).2.log = [.callOpen 0, .EnumDevices] :=
  have h := C10_failed_open_leaves_closed noDevices 0 World.init (by decide) (by decide)
  ⟨by decide, h.1, h.2.1, h.2.2.1, h.2.2.2.1 (Or.inr (by decide))⟩

/-! ## The attempt log -/

section attempts

variable (drv : Driver)

theorem StopGrabbing_attempts (w : World) : (StopGrabbing drv w).2.attempts = w.attempts := by
  unfold StopGrabbing; dsimp only
  split_ifs <;>
    simp [World.attempts, World.tick, World.SetError, World.setLastError, isAttemptEvent]

theorem StartGrabbing_attempts (w : World) : (StartGrabbing drv w).2.attempts = w.attempts := by
  unfold StartGrabbing; dsimp only
  split_ifs <;>
    simp [World.attempts, World.tick, World.SetError, World.setLastError, isAttemptEvent]

theorem Close_attempts (w : World) : (Close drv w).2.attempts = w.attempts := by
  have hs := StopGrabbing_attempts drv w
  unfold Close; dsimp only
  unfold World.attempts at hs ⊢
  split_ifs <;>
    simp [World.tick, World.SetError, World.setLastError, isAttemptEvent, hs]

theorem Open_attempts (index : Nat) (w : World) :
    (Open drv index w).2.attempts = w.attempts ++ [.callOpen index] := by
  unfold Open; dsimp only
  split_ifs <;>
    simp [World.attempts, World.tick, World.note, World.SetError, World.setLastError,
      isAttemptEvent]

theorem SetExposureTime_attempts (v : F32) (w : World) :
    (SetExposureTime drv v w).2.attempts = w.attempts := by
  unfold SetExposureTime; dsimp only
  split_ifs <;>
    simp [World.attempts, World.tick, World.SetError, World.setLastError, isAttemptEvent]

theorem SetGain_attempts (v : F32) (w : World) : (SetGain drv v w).2.attempts = w.attempts := by
  unfold SetGain; dsimp only
  split_ifs <;>
    simp [World.attempts, World.tick, World.SetError, World.setLastError, isAttemptEvent]

theorem SetFrameRate_attempts (v : F32) (w : World) :
    (SetFrameRate drv v w).2.attempts = w.attempts := by
  unfold SetFrameRate; dsimp only
  split_ifs <;>
    simp [World.attempts, World.tick, World.SetError, World.setLastError, isAttemptEvent]

theorem SetPixelFormat_attempts (v : Nat) (w : World) :
    (SetPixelFormat drv v w).2.attempts = w.attempts := by
  unfold SetPixelFormat; dsimp only
  split_ifs <;>
    simp [World.attempts, World.tick, World.SetError, World.setLastError, isAttemptEvent]

theorem SetTriggerMode_attempts (v : Bool) (w : World) :
    (SetTriggerMode drv v w).2.attempts = w.attempts := by
  unfold SetTriggerMode; dsimp only
  split_ifs <;>
    simp [World.attempts, World.tick, World.SetError, World.setLastError, isAttemptEvent]

theorem ReconnectRestore_attempts (w : World) : (ReconnectRestore drv w).attempts = w.attempts := by
  unfold ReconnectRestore; dsimp only
  rw [SetTriggerMode_attempts]
  repeat (first
    | rw [apply_ite World.attempts]
    | rw [SetPixelFormat_attempts] | rw [SetFrameRate_attempts]
    | rw [SetGain_attempts] | rw [SetExposureTime_attempts] | rw [ite_self])

theorem ReconnectPrepare_attempts (d a : Int) (w : World) :
    (ReconnectPrepare drv d a w).attempts = w.attempts ++ [.sleep (wrapInt32 (d * a))] := by
  have key : ∀ v : World, (v.note (.sleep (wrapInt32 (d * a)))).attempts =
      v.attempts ++ [.sleep (wrapInt32 (d * a))] := by
    intro v; simp [World.attempts, World.note, isAttemptEvent]
  unfold ReconnectPrepare; dsimp only
  rw [key]
  split_ifs <;> simp only [Close_attempts, StopGrabbing_attempts]

theorem ReconnectAttempt_attempts (index : Nat) (d a : Int) (w : World) :
    (ReconnectAttempt drv index d a w).2.attempts =
      w.attempts ++ [.sleep (wrapInt32 (d * a)), .callOpen index] := by
  unfold ReconnectAttempt; dsimp only
  split_ifs <;>
    simp only [Close_attempts, StartGrabbing_attempts, ReconnectRestore_attempts, Open_attempts,
      ReconnectPrepare_attempts, List.append_assoc, List.singleton_append]

theorem ReconnectAttempt_false_isOpen (index : Nat) (d a : Int) (w : World)
    (h : (ReconnectAttempt drv index d a w).1 = false) :
    (ReconnectAttempt drv index d a w).2.cam.m_isOpen = false := by
  revert h
  unfold ReconnectAttempt; dsimp only
  split_ifs with h1 h2
  · intro _; exact Open_false_isOpen drv index _ (ReconnectPrepare_isOpen drv d a w) h1
  · intro _; exact Close_isOpen drv _
  · intro h; exact absurd h (by simp)

/-- The loop body ends in `return true` exactly when its `Open` and its
`StartGrabbing` both return success. -/
theorem ReconnectAttempt_fst (index : Nat) (d a : Int) (w : World) :
    (ReconnectAttempt drv index d a w).1 =
      ((Open drv index (ReconnectPrepare drv d a w)).1 &&
        (StartGrabbing drv
          (ReconnectRestore drv (Open drv index (ReconnectPrepare drv d a w)).2)).1) := by
  unfold ReconnectAttempt; dsimp only
  split_ifs with h1 h2
  · rw [h1]; rfl
  · rw [h2]; simp
  · have e1 : (Open drv index (ReconnectPrepare drv d a w)).1 = true := by simpa using h1
    have e2 : (StartGrabbing drv
        (ReconnectRestore drv (Open drv index (ReconnectPrepare drv d a w)).2)).1 = true := by
      simpa using h2
    rw [e1, e2]; rfl

end attempts

/-! ## The loop of `Reconnect` -/

theorem attemptSucceeds_succ (drv : Driver) (index : Nat) (d : Int) (j : Nat) (w : World) :
    attemptSucceeds drv index d (j + 1) w =
      (ReconnectAttempt drv index d ((j : Int) + 1) (attemptState drv index d j w)).1 := by
  simp [attemptSucceeds]

theorem attemptState_isOpen (drv : Driver) (index : Nat) (d : Int) (w : World)
    (hw : w.cam.m_isOpen = false) :
    ∀ k : Nat, (∀ j, 1 ≤ j → j ≤ k → attemptSucceeds drv index d j w = false) →
      (attemptState drv index d k w).cam.m_isOpen = false := by
  intro k
  cases k with
  | zero => intro _; exact hw
  | succ k =>
    intro h
    have hk := h (k + 1) (by omega) (le_refl _)
    rw [attemptSucceeds_succ] at hk
    exact ReconnectAttempt_false_isOpen drv index d _ _ hk

theorem attemptState_attempts (drv : Driver) (index : Nat) (d : Int) (w : World) (hd : 0 ≤ d) :
    ∀ k : Nat, d * (k : Int) ≤ 2147483647 →
      (attemptState drv index d k w).attempts = w.attempts ++ schedule index d k := by
  intro k
  induction k with
  | zero => intro _; simp [attemptState, schedule]
  | succ k ih =>
    intro hk
    have hk1 : d * ((k : Int) + 1) ≤ 2147483647 := by push_cast at hk; exact hk
    have hk0 : d * (k : Int) ≤ 2147483647 := by nlinarith
    have hpos : 0 ≤ d * ((k : Int) + 1) := by positivity
    simp only [attemptState, schedule]
    rw [ReconnectAttempt_attempts, ih hk0, wrapInt32_of_range _ (by omega) hk1,
      List.append_assoc]

/-- After `j` failed attempts the loop stands at counter `j + 1` in the state
`attemptState j`. -/
theorem ReconnectLoop_after_failures (drv : Driver) (index : Nat) (N d : Int) (w : World)
    (hw : w.cam.m_isOpen = false) :
    ∀ (j fuel : Nat), (j : Int) ≤ N → (j : Int) < 2147483647 →
      (∀ i, 1 ≤ i → i ≤ j → attemptSucceeds drv index d i w = false) →
      ReconnectLoop drv index N d (fuel + j) 1 w =
        ReconnectLoop drv index N d fuel ((j : Int) + 1) (attemptState drv index d j w) := by
  intro j
  induction j with
  | zero => intro fuel _ _ _; simp [attemptState]
  | succ j ih =>
    intro fuel hjN hj hfail
    have hjN0 : (j : Int) ≤ N := by push_cast at hjN; omega
    have hj0 : (j : Int) < 2147483647 := by push_cast at hj; omega
    have hfail0 : ∀ i, 1 ≤ i → i ≤ j → attemptSucceeds drv index d i w = false :=
      fun i h1 h2 => hfail i h1 (by omega)
    have e : fuel + (j + 1) = (fuel + 1) + j := by omega
    rw [e, ih (fuel + 1) hjN0 hj0 hfail0]
    have hopen := attemptState_isOpen drv index d w hw j hfail0
    have hf := hfail (j + 1) (by omega) (le_refl _)
    rw [attemptSucceeds_succ] at hf
    have hc : ((j : Int) + 1 ≤ N ∧ (attemptState drv index d j w).cam.m_isOpen = false) :=
      ⟨by push_cast at hjN; exact hjN, hopen⟩
    conv_lhs => unfold ReconnectLoop
    dsimp only
    rw [if_pos hc, if_neg (by simp [hf]),
      wrapInt32_of_range _ (by omega) (by push_cast at hj; omega)]
    simp only [attemptState]
    push_cast
    rfl

theorem openCalls_append (l1 l2 : List Event) :
    openCalls (l1 ++ l2) = openCalls l1 + openCalls l2 := by
  induction l1 with
  | nil => simp [openCalls]
  | cons e r ih =>
    cases e <;> simp [openCalls, ih]
    omega

theorem sleepTotal_append (l1 l2 : List Event) :
    sleepTotal (l1 ++ l2) = sleepTotal l1 + sleepTotal l2 := by
  induction l1 with
  | nil => simp [sleepTotal]
  | cons e r ih =>
    cases e <;> simp [sleepTotal, ih]
    omega

theorem openCalls_schedule (index : Nat) (d : Int) (k : Nat) :
    openCalls (schedule index d k) = k := by
  induction k with
  | zero => rfl
  | succ k ih => simp [schedule, openCalls_append, ih, openCalls]

theorem sleepTotal_schedule (index : Nat) (d : Int) (k : Nat) :
    sleepTotal (schedule index d k) = d * ((k * (k + 1) / 2 : Nat) : Int) := by
  induction k with
  | zero => simp [schedule, sleepTotal]
  | succ k ih =>
    have e : (k + 1) * (k + 1 + 1) / 2 = k * (k + 1) / 2 + (k + 1) := by
      have : (k + 1) * (k + 1 + 1) = k * (k + 1) + 2 * (k + 1) := by ring
      rw [this, Nat.add_mul_div_left _ _ (by norm_num)]
    simp only [schedule, sleepTotal_append, ih, sleepTotal, e]
    push_cast
    ring

/-- Against the driver that always fails, a pass through the loop body on a
session that is not open ends in `continue`. -/
theorem ReconnectAttempt_errDriver (index : Nat) (d a : Int) (w : World) :
    (ReconnectAttempt errDriver index d a w).1 = false := by
  rw [ReconnectAttempt_fst]
  have h := (Open_log_no_create errDriver index (ReconnectPrepare errDriver d a w)
    (ReconnectPrepare_isOpen errDriver d a w)
    (Or.inl (show errResp.status ≠ MV_OK by decide))).2
  rw [h]; rfl

/-- With the budget `2147483647` and a driver that always fails, the loop of
`Reconnect` does not end within any number of passes: the counter wraps
around before it can exceed the budget. -/
theorem ReconnectLoop_errDriver_maxInt (index : Nat) (d : Int) (fuel : Nat) :
    ∀ (a : Int) (w : World), w.cam.m_isOpen = false → a ≤ 2147483647 →
      ReconnectLoop errDriver index 2147483647 d fuel a w = none := by
  induction fuel with
  | zero => intro a w _ _; rfl
  | succ n ih =>
    intro a w hw ha
    unfold ReconnectLoop
    dsimp only
    rw [if_pos ⟨ha, hw⟩, if_neg (by simp [ReconnectAttempt_errDriver])]
    exact ih _ _ (ReconnectAttempt_false_isOpen errDriver index d a w
      (ReconnectAttempt_errDriver index d a w)) (wrapInt32_range _).2

/-- C4, refuted as stated: with `baseDelay = 2^30` and two failing attempts
the `int` product `retryDelayMs * attempt` of the second attempt wraps around
to `-2147483648`, which is not `baseDelay × 2`; and with the budget
`N = 2147483647` against a driver that always fails `Reconnect` never returns
failure, because the `int` counter wraps around instead of exceeding `N`. -/
theorem C4_backoff_int_overflow :
    ((Reconnect errDriver 0 2 1073741824 3 World.init).map fun p => (p.1, p.2.attempts)) =
        some (false, [.sleep 1073741824, .callOpen 0, .sleep (-2147483648), .callOpen 0]) ∧
      (1073741824 : Int) * 2 ≠ -2147483648 ∧
      (∀ fuel : Nat, Reconnect errDriver 0 2147483647 0 fuel World.init = none) :=
  ⟨by decide, by decide,
    fun fuel => ReconnectLoop_errDriver_maxInt 0 0 fuel 1 _ rfl (by decide)⟩

/-- C4, amended: for a session that is not open at entry, a budget
`0 ≤ N ≤ 2147483647` and a base delay `d ≥ 0`, with enough loop passes allowed
(`N < fuel`):
* if attempt `k` (`1 ≤ k ≤ N`, `d * k` within `int`) is the first to end in
  success, `Reconnect` returns success in the state after `k` passes, and the
  sleeps and `Open` entries it logged are exactly `sleep (d*1), Open, ...,
  sleep (d*k), Open`;
* if `N < 2147483647`, `d * N` is within `int` and no attempt succeeds,
  `Reconnect` returns failure after exactly the `N` pairs
  `sleep (d*n), Open`;
* such a list of `k` pairs holds `k` entries into `Open` and sleeps
  `d * (k * (k + 1) / 2)` in total;
* an attempt ends in success exactly when its `Open` and its `StartGrabbing`
  both return success. -/
theorem C4_reconnect_attempt_schedule (drv : Driver) (index : Nat) (N d : Int) (fuel : Nat)
    (w : World) (hw : w.cam.m_isOpen = false) (hN : 0 ≤ N) (hNi : N ≤ 2147483647)
    (hd : 0 ≤ d) (hfuel : N < (fuel : Int)) :
    (∀ k : Nat, 1 ≤ k → (k : Int) ≤ N → d * (k : Int) ≤ 2147483647 →
      (∀ j, 1 ≤ j → j < k → attemptSucceeds drv index d j (reconnectEntry index w) = false) →
      attemptSucceeds drv index d k (reconnectEntry index w) = true →
      Reconnect drv index N d fuel w =
          some (true, attemptState drv index d k (reconnectEntry index w)) ∧
        (attemptState drv index d k (reconnectEntry index w)).attempts =
          w.attempts ++ schedule index d k) ∧
    (N < 2147483647 → d * N ≤ 2147483647 →
      (∀ j : Nat, 1 ≤ j → (j : Int) ≤ N →
        attemptSucceeds drv index d j (reconnectEntry index w) = false) →
      Reconnect drv index N d fuel w =
          some (false, attemptState drv index d N.toNat (reconnectEntry index w)) ∧
        (attemptState drv index d N.toNat (reconnectEntry index w)).attempts =
          w.attempts ++ schedule index d N.toNat) ∧
    (∀ k : Nat, openCalls (schedule index d k) = k ∧
      sleepTotal (schedule index d k) = d * ((k * (k + 1) / 2 : Nat) : Int)) ∧
    (∀ (a : Int) (v : World), (ReconnectAttempt drv index d a v).1 =
      ((Open drv index (ReconnectPrepare drv d a v)).1 &&
        (StartGrabbing drv
          (ReconnectRestore drv (Open drv index (ReconnectPrepare drv d a v)).2)).1)) := by
  have hw0 : (reconnectEntry index w).cam.m_isOpen = false := hw
  have hatt : (reconnectEntry index w).attempts = w.attempts := rfl
  refine ⟨?_, ?_, fun k => ⟨openCalls_schedule index d k, sleepTotal_schedule index d k⟩,
    ReconnectAttempt_fst drv index d⟩
  · intro k hk1 hkN hdk hfail hsucc
    obtain ⟨j, rfl⟩ : ∃ j, k = j + 1 := ⟨k - 1, by omega⟩
    obtain ⟨f, rfl⟩ : ∃ f, fuel = (f + 1) + j := ⟨fuel - (j + 1), by omega⟩
    have hjN : (j : Int) ≤ N := by push_cast at hkN; omega
    have hj : (j : Int) < 2147483647 := by push_cast at hkN; omega
    have hfail0 : ∀ i, 1 ≤ i → i ≤ j →
        attemptSucceeds drv index d i (reconnectEntry index w) = false :=
      fun i h1 h2 => hfail i h1 (by omega)
    have hopen := attemptState_isOpen drv index d _ hw0 j hfail0
    rw [attemptSucceeds_succ] at hsucc
    constructor
    · show ReconnectLoop drv index N d (f + 1 + j) 1 (reconnectEntry index w) = _
      rw [ReconnectLoop_after_failures drv index N d _ hw0 j (f + 1) hjN hj hfail0]
      conv_lhs => unfold ReconnectLoop
      dsimp only
      rw [if_pos ⟨by push_cast at hkN; exact hkN, hopen⟩, if_pos hsucc]
      rfl
    · rw [attemptState_attempts drv index d _ hd (j + 1) hdk, hatt]
  · intro hN1 hdN hfail
    obtain ⟨n, rfl⟩ : ∃ n : Nat, N = (n : Int) := ⟨N.toNat, (Int.toNat_of_nonneg hN).symm⟩
    obtain ⟨f, rfl⟩ : ∃ f, fuel = (f + 1) + n := ⟨fuel - (n + 1), by omega⟩
    have hfail0 : ∀ i, 1 ≤ i → i ≤ n →
        attemptSucceeds drv index d i (reconnectEntry index w) = false :=
      fun i h1 h2 => hfail i h1 (by exact_mod_cast h2)
    rw [Int.toNat_ofNat]
    constructor
    · show ReconnectLoop drv index n d (f + 1 + n) 1 (reconnectEntry index w) = _
      rw [ReconnectLoop_after_failures drv index n d _ hw0 n (f + 1) (le_refl _) hN1 hfail0]
      conv_lhs => unfold ReconnectLoop
      dsimp only
      rw [if_neg (by omega)]
    · rw [attemptState_attempts drv index d _ hd n hdN, hatt]

/-- C4 amended at a concrete input: `Reconnect(0, 3, 100)` on a fresh
session, against a driver whose very first call fails: attempt 1 fails,
attempt 2 succeeds, and the log holds `sleep 100, Open, sleep 200, Open`. -/
theorem C4_reconnect_attempt_schedule_witness :
    Reconnect (failAt 0) 0 3 100 4 World.init =
        some (true, attemptState (failAt 0) 0 100 2 (reconnectEntry 0 World.init)) ∧
      (attemptState (failAt 0) 0 100 2 (reconnectEntry 0 World.init)).attempts =
        [.sleep 100, .callOpen 0, .sleep 200, .callOpen 0] :=
  have h := (C4_reconnect_attempt_schedule (failAt 0) 0 3 100 4 World.init (by decide)
    (by decide) (by decide) (by decide) (by decide)).1 2 (by decide) (by decide) (by decide)
    (fun j h1 h2 => by
      have e : j = 1 := by omega
      subst e; decide)
    (by decide)
  ⟨h.1, h.2.trans (by decide)⟩

/-! ## Frame retrieval -/

/-- What a successful `GrabImageBGR` stores in the out-parameter. -/
theorem GrabImageBGR_out_of_true (drv : Driver) (im : ImageData) (t : Nat) (w : World)
    (h : (GrabImageBGR drv im t w).1 = true) :
    (GrabImageBGR drv im t w).2.1 =
      { width := (drv w.calls).nWidth, height := (drv w.calls).nHeight,
        pixelFormat := PixelType_Gvsp_BGR8_Packed,
        dataSize := ((drv w.calls).nWidth * (drv w.calls).nHeight * 3) % 4294967296,
        data := .convertBuffer } := by
  revert h
  unfold GrabImageBGR; dsimp only
  split_ifs <;> first | (intro _; rfl) | (intro h; exact absurd h (by simp))

/-- C11, refuted as stated: for 40000 x 40000 frames a successful
`GrabImageBGR` reports the byte length `505032704`, which is not
`40000 * 40000 * 3 = 4800000000`; this holds on the conversion path (8-bit
mono source) and on the direct-copy path (BGR source). -/
theorem C11_converted_size_wraps :
    (GrabImageBGR hugeMonoDriver ImageData.empty 1000 grabbingOk).1 = true ∧
      (GrabImageBGR hugeMonoDriver ImageData.empty 1000 grabbingOk).2.1.dataSize = 505032704 ∧
      (GrabImageBGR hugeBgrDriver ImageData.empty 1000 grabbingOk).1 = true ∧
      (GrabImageBGR hugeBgrDriver ImageData.empty 1000 grabbingOk).2.1.dataSize = 505032704 ∧
      (GrabImageBGR hugeBgrDriver ImageData.empty 1000 grabbingOk).2.1.width = 40000 ∧
      (GrabImageBGR hugeBgrDriver ImageData.empty 1000 grabbingOk).2.1.height = 40000 ∧
      (505032704 : Nat) ≠ 40000 * 40000 * 3 :=
  ⟨by decide, by decide, by decide, by decide, by decide, by decide, by decide⟩

/-- C11, amended: a successful `GrabImageBGR`, on the direct-copy path as on
the conversion path, returns the width and height the driver reported and
the byte length `width * height * 3` reduced modulo `2^32` (the product is an
`unsigned int`); the byte length is exactly `width * height * 3` whenever
that product is below `2^32`. -/
theorem C11_converted_size (drv : Driver) (im : ImageData) (t : Nat) (w : World)
    (h : (GrabImageBGR drv im t w).1 = true) :
    (GrabImageBGR drv im t w).2.1.width = (drv w.calls).nWidth ∧
      (GrabImageBGR drv im t w).2.1.height = (drv w.calls).nHeight ∧
      (GrabImageBGR drv im t w).2.1.dataSize =
        ((drv w.calls).nWidth * (drv w.calls).nHeight * 3) % 4294967296 ∧
      ((drv w.calls).nWidth * (drv w.calls).nHeight * 3 < 4294967296 →
        (GrabImageBGR drv im t w).2.1.dataSize =
          (GrabImageBGR drv im t w).2.1.width * (GrabImageBGR drv im t w).2.1.height * 3) := by
  rw [GrabImageBGR_out_of_true drv im t w h]
  exact ⟨rfl, rfl, rfl, fun hlt => Nat.mod_eq_of_lt hlt⟩

/-- C11 amended at a concrete input: a 4 x 2 frame already in the BGR target
format is returned with byte length 24. -/
theorem C11_converted_size_witness :
    (GrabImageBGR okDriver ImageData.empty 1000 grabbingOk).2.1.width = 4 ∧
      (GrabImageBGR okDriver ImageData.empty 1000 grabbingOk).2.1.height = 2 ∧
      (GrabImageBGR okDriver ImageData.empty 1000 grabbingOk).2.1.dataSize = 24 :=
  have h := C11_converted_size okDriver ImageData.empty 1000 grabbingOk (by decide)
  ⟨h.1, h.2.1, h.2.2.1⟩

theorem freeCalls_append (l1 l2 : List Event) :
    freeCalls (l1 ++ l2) = freeCalls l1 + freeCalls l2 := by
  induction l1 with
  | nil => simp [freeCalls]
  | cons e r ih =>
    cases e <;> simp [freeCalls, ih]
    omega

/-- C12: for every call of `GrabImage` or `GrabImageBGR`, in every session
state and under every driver behaviour, the driver's frame release is invoked
exactly once when the call was let through (the session is grabbing) and the
fetch succeeded, and then it is the last driver call before the return, made
on the session's handle, on every return path, a failed pixel conversion
included; it is not invoked at all when the call was rejected as not
grabbing or the fetch reported no data or an error. -/
theorem C12_frame_released_exactly_once (drv : Driver) (im : ImageData) (t : Nat) (w : World) :
    (freeCalls (GrabImage drv im t w).2.2.log = freeCalls w.log +
        (if w.cam.m_isGrabbing = true ∧ (drv w.calls).status = MV_OK then 1 else 0)) ∧
    (freeCalls (GrabImageBGR drv im t w).2.2.log = freeCalls w.log +
        (if w.cam.m_isGrabbing = true ∧ (drv w.calls).status = MV_OK then 1 else 0)) ∧
    (w.cam.m_isGrabbing = true → (drv w.calls).status = MV_OK →
      (GrabImage drv im t w).2.2.log.getLast? = some (.FreeImageBuffer w.cam.m_handle) ∧
      (GrabImageBGR drv im t w).2.2.log.getLast? = some (.FreeImageBuffer w.cam.m_handle)) ∧
    (w.cam.m_isGrabbing = true → (drv w.calls).status = MV_OK →
      (drv w.calls).enPixelType ≠ PixelType_Gvsp_BGR8_Packed →
      (drv (w.calls + 1)).status ≠ MV_OK →
      (GrabImageBGR drv im t w).1 = false ∧
        (GrabImageBGR drv im t w).2.2.log = w.log ++
          [.GetImageBuffer w.cam.m_handle t,
            .ConvertPixelType w.cam.m_handle (drv w.calls).nWidth (drv w.calls).nHeight
              (drv w.calls).nFrameLen (drv w.calls).enPixelType
              (((drv w.calls).nWidth * (drv w.calls).nHeight * 3) % 4294967296),
            .FreeImageBuffer w.cam.m_handle]) := by
  refine ⟨?_, ?_, ?_, ?_⟩
  · unfold GrabImage; dsimp only
    split_ifs <;>
      simp_all [World.tick, World.SetError, World.setLastError, freeCalls_append, freeCalls]
  · unfold GrabImageBGR; dsimp only
    split_ifs <;>
      simp_all [World.tick, World.note, World.SetError, World.setLastError, freeCalls_append,
        freeCalls]
  · intro hg hs
    constructor
    · unfold GrabImage; dsimp only
      rw [if_neg (by simp [hg]), if_neg (by simp [hs])]
      simp [World.tick]
    · unfold GrabImageBGR; dsimp only
      rw [if_neg (by simp [hg]), if_neg (by simp [hs])]
      split_ifs <;> simp [World.tick, World.note, World.SetError, World.setLastError]
  · intro hg hs hp hc
    unfold GrabImageBGR; dsimp only
    rw [if_neg (by simp [hg]), if_neg (by simp [hs]), if_neg hp]
    split_ifs with h1 h2 h2
    · simp [World.tick, World.SetError, World.setLastError]
    · exact absurd h2 (by simpa [World.tick] using hc)
    · simp [World.tick, World.SetError, World.setLastError]
    · exact absurd h2 (by simpa [World.tick] using hc)

/-- C17 (the code departs from the claim): on the direct-copy path
`GrabImageBGR` copies the frame length the driver reports, whatever the
capacity of the Conversion Buffer: for a 4 x 2 BGR frame reported with 100
bytes the buffer holds 24 bytes and 100 bytes are copied into it. -/
theorem C17_direct_copy_exceeds_capacity :
    (GrabImageBGR longFrameDriver ImageData.empty 1000 grabbingOk).1 = true ∧
      (GrabImageBGR longFrameDriver ImageData.empty 1000 grabbingOk).2.2.cam.m_bufferSize = 24 ∧
      (GrabImageBGR longFrameDriver ImageData.empty 1000 grabbingOk).2.2.cam.m_convertBuffer =
        some 24 ∧
      (GrabImageBGR longFrameDriver ImageData.empty 1000 grabbingOk).2.2.log.drop
          grabbingOk.log.length =
        [.GetImageBuffer (some 7) 1000, .memcpy 24 100, .FreeImageBuffer (some 7)] ∧
      ¬ (100 ≤ 24) :=
  ⟨by decide, by decide, by decide, by decide, by decide⟩

/-- C14: on an open session, for every rate and every driver behaviour,
`SetFrameRate` issues the direct rate-set call alone when that call succeeds
and then returns success; when it fails it issues the frame-rate-enable
switch call and then exactly one more rate-set call, and returns success
exactly when that retry succeeds.  So it returns success exactly when the
direct call or the retry succeeded; the response to the enable call plays
no part. -/
theorem C14_set_frame_rate_fallback (drv : Driver) (fps : F32) (w : World)
    (h : w.cam.m_isOpen = true) :
    ((drv w.calls).status = MV_OK →
      (SetFrameRate drv fps w).1 = true ∧
        (SetFrameRate drv fps w).2.log =
          w.log ++ [.SetFloatValue w.cam.m_handle "AcquisitionFrameRate" fps]) ∧
    ((drv w.calls).status ≠ MV_OK →
      (SetFrameRate drv fps w).2.log =
          w.log ++ [.SetFloatValue w.cam.m_handle "AcquisitionFrameRate" fps,
            .SetEnumValue w.cam.m_handle "AcquisitionFrameRateEnable" 1,
            .SetFloatValue w.cam.m_handle "AcquisitionFrameRate" fps] ∧
        ((SetFrameRate drv fps w).1 = true ↔ (drv (w.calls + 2)).status = MV_OK)) ∧
    ((SetFrameRate drv fps w).1 = true ↔
      ((drv w.calls).status = MV_OK ∨
        ((drv w.calls).status ≠ MV_OK ∧ (drv (w.calls + 2)).status = MV_OK))) := by
  unfold SetFrameRate; dsimp only
  rw [if_neg (by simp [h])]
  by_cases h0 : (drv w.calls).status = MV_OK
  · rw [if_neg (by simp [h0])]
    simp [h0, World.tick]
  · rw [if_pos h0]
    by_cases h2 : (drv (w.calls + 2)).status = MV_OK
    · rw [if_neg (by simpa [World.tick] using h2)]
      simp [h0, h2, World.tick]
    · rw [if_pos (by simpa [World.tick] using h2)]
      simp [h0, h2, World.tick, World.SetError, World.setLastError]

/-- C14 at a concrete input: on the session opened by `Open(0)`, with a
driver whose direct rate-set call (its fifth call) fails, `SetFrameRate`
issues the three calls and returns success through the retry. -/
theorem C14_set_frame_rate_fallback_witness :
    (SetFrameRate (failAt 4) 0x41F00000 openSession).1 = true ∧
      (SetFrameRate (failAt 4) 0x41F00000 openSession).2.log = openSession.log ++
        [.SetFloatValue (some 7) "AcquisitionFrameRate" 0x41F00000,
          .SetEnumValue (some 7) "AcquisitionFrameRateEnable" 1,
          .SetFloatValue (some 7) "AcquisitionFrameRate" 0x41F00000] :=
  have h := C14_set_frame_rate_fallback (failAt 4) 0x41F00000 openSession (by decide)
  ⟨h.2.2.mpr (Or.inr ⟨by decide, by decide⟩), (h.2.1 (by decide)).1⟩

/-- C16 (the code departs from the claim): on the session left grabbing but
closed by a `Close()` whose stop failed, `Reconnect(0, 3, 100)` with a driver
that again refuses the stop returns success on its first attempt although
`MV_CC_StartGrabbing` is never called: `StartGrabbing()` returns success
from the flag `m_isGrabbing` that was left set. -/
theorem C16_reconnect_success_without_start_call :
    Reachable staleGrabbing ∧
      staleGrabbing.cam.m_isGrabbing = true ∧ staleGrabbing.cam.m_isOpen = false ∧
      Reconnect stopFailsAgain 0 3 100 4 staleGrabbing =
        some (true, attemptState stopFailsAgain 0 100 1 staleGrabbing) ∧
      (attemptState stopFailsAgain 0 100 1 staleGrabbing).log.drop staleGrabbing.log.length =
        [.StopGrabbing none, .sleep 100, .callOpen 0, .EnumDevices, .CreateHandle 0,
          .OpenDevice (some 7), .SetEnumValue (some 7) "TriggerMode" 0,
          .SetEnumValue (some 7) "TriggerMode" 0] ∧
      (∀ h, Event.StartGrabbing h ∉
        (attemptState stopFailsAgain 0 100 1 staleGrabbing).log.drop staleGrabbing.log.length) :=
  have e : (attemptState stopFailsAgain 0 100 1 staleGrabbing).log.drop
      staleGrabbing.log.length =
      [.StopGrabbing none, .sleep 100, .callOpen 0, .EnumDevices, .CreateHandle 0,
        .OpenDevice (some 7), .SetEnumValue (some 7) "TriggerMode" 0,
        .SetEnumValue (some 7) "TriggerMode" 0] := by decide
  ⟨Reachable.Close _ (Reachable.StartGrabbing _ (Reachable.Open _ 0 Reachable.init)),
    by decide, by decide, by rfl, e, fun h hm => by rw [e] at hm; simp at hm⟩

/-! ## The replay of the saved settings -/

section replay

variable (drv : Driver)

theorem SetExposureTime_log (v : F32) (w : World) (h : w.cam.m_isOpen = true) :
    (SetExposureTime drv v w).2.log = w.log ++ [.SetFloatValue w.cam.m_handle "ExposureTime" v] ∧
      (SetExposureTime drv v w).2.calls = w.calls + 1 := by
  unfold SetExposureTime; dsimp only
  rw [if_neg (by simp [h])]
  split_ifs <;> simp [World.tick, World.SetError, World.setLastError]

theorem SetGain_log (v : F32) (w : World) (h : w.cam.m_isOpen = true) :
    (SetGain drv v w).2.log = w.log ++ [.SetFloatValue w.cam.m_handle "Gain" v] ∧
      (SetGain drv v w).2.calls = w.calls + 1 := by
  unfold SetGain; dsimp only
  rw [if_neg (by simp [h])]
  split_ifs <;> simp [World.tick, World.SetError, World.setLastError]

theorem SetPixelFormat_log (v : Nat) (w : World) (h : w.cam.m_isOpen = true) :
    (SetPixelFormat drv v w).2.log = w.log ++ [.SetEnumValue w.cam.m_handle "PixelFormat" v] ∧
      (SetPixelFormat drv v w).2.calls = w.calls + 1 := by
  unfold SetPixelFormat; dsimp only
  rw [if_neg (by simp [h])]
  split_ifs <;> simp [World.tick, World.SetError, World.setLastError]

theorem SetTriggerMode_log (v : Bool) (w : World) (h : w.cam.m_isOpen = true) :
    (SetTriggerMode drv v w).2.log =
      w.log ++ [.SetEnumValue w.cam.m_handle "TriggerMode" (if v = true then 1 else 0)] := by
  unfold SetTriggerMode; dsimp only
  rw [if_neg (by simp [h])]
  split_ifs <;> simp [World.tick, World.SetError, World.setLastError]

theorem SetFrameRate_log (v : F32) (w : World) (h : w.cam.m_isOpen = true) :
    (SetFrameRate drv v w).2.log =
      w.log ++ (Event.SetFloatValue w.cam.m_handle "AcquisitionFrameRate" v ::
        (if (drv w.calls).status ≠ MV_OK then
          [Event.SetEnumValue w.cam.m_handle "AcquisitionFrameRateEnable" 1,
            Event.SetFloatValue w.cam.m_handle "AcquisitionFrameRate" v]
        else [])) := by
  unfold SetFrameRate; dsimp only
  rw [if_neg (by simp [h])]
  split_ifs <;> simp [World.tick, World.SetError, World.setLastError]

/-- On an open session the replay logs exactly `replayCalls`. -/
theorem ReconnectRestore_log (w : World) (h : w.cam.m_isOpen = true) :
    (ReconnectRestore drv w).log = w.log ++ replayCalls drv w := by
  unfold ReconnectRestore; dsimp only
  have p1 : (if w.cam.m_savedExposure.gtZero = true then
        (SetExposureTime drv w.cam.m_savedExposure w).2 else w).cam.m_isOpen = true ∧
      (if w.cam.m_savedExposure.gtZero = true then
        (SetExposureTime drv w.cam.m_savedExposure w).2 else w).cam.m_handle = w.cam.m_handle ∧
      (if w.cam.m_savedExposure.gtZero = true then
        (SetExposureTime drv w.cam.m_savedExposure w).2 else w).cam.store = w.cam.store ∧
      (if w.cam.m_savedExposure.gtZero = true then
        (SetExposureTime drv w.cam.m_savedExposure w).2 else w).log = w.log ++
          (if w.cam.m_savedExposure.gtZero = true then
            [Event.SetFloatValue w.cam.m_handle "ExposureTime" w.cam.m_savedExposure] else []) ∧
      (if w.cam.m_savedExposure.gtZero = true then
        (SetExposureTime drv w.cam.m_savedExposure w).2 else w).calls =
          w.calls + (if w.cam.m_savedExposure.gtZero = true then 1 else 0) := by
    split_ifs
    · exact ⟨by rw [SetExposureTime_isOpen]; exact h, SetExposureTime_handle drv _ w,
        SetExposureTime_store_self drv w, (SetExposureTime_log drv _ w h).1,
        (SetExposureTime_log drv _ w h).2⟩
    · exact ⟨h, rfl, rfl, by simp, rfl⟩
  generalize (if w.cam.m_savedExposure.gtZero = true then
      (SetExposureTime drv w.cam.m_savedExposure w).2 else w) = w1 at p1 ⊢
  obtain ⟨o1, hd1, st1, l1, c1⟩ := p1
  have p2 : (if w1.cam.m_savedGain.gtZero = true then
        (SetGain drv w1.cam.m_savedGain w1).2 else w1).cam.m_isOpen = true ∧
      (if w1.cam.m_savedGain.gtZero = true then
        (SetGain drv w1.cam.m_savedGain w1).2 else w1).cam.m_handle = w1.cam.m_handle ∧
      (if w1.cam.m_savedGain.gtZero = true then
        (SetGain drv w1.cam.m_savedGain w1).2 else w1).cam.store = w1.cam.store ∧
      (if w1.cam.m_savedGain.gtZero = true then
        (SetGain drv w1.cam.m_savedGain w1).2 else w1).log = w1.log ++
          (if w1.cam.m_savedGain.gtZero = true then
            [Event.SetFloatValue w1.cam.m_handle "Gain" w1.cam.m_savedGain] else []) ∧
      (if w1.cam.m_savedGain.gtZero = true then
        (SetGain drv w1.cam.m_savedGain w1).2 else w1).calls =
          w1.calls + (if w1.cam.m_savedGain.gtZero = true then 1 else 0) := by
    split_ifs
    · exact ⟨by rw [SetGain_isOpen]; exact o1, SetGain_handle drv _ w1,
        SetGain_store_self drv w1, (SetGain_log drv _ w1 o1).1, (SetGain_log drv _ w1 o1).2⟩
    · exact ⟨o1, rfl, rfl, by simp, rfl⟩
  generalize (if w1.cam.m_savedGain.gtZero = true then
      (SetGain drv w1.cam.m_savedGain w1).2 else w1) = w2 at p2 ⊢
  obtain ⟨o2, hd2, st2, l2, c2⟩ := p2
  have p3 : (if w2.cam.m_savedFrameRate.gtZero = true then
        (SetFrameRate drv w2.cam.m_savedFrameRate w2).2 else w2).cam.m_isOpen = true ∧
      (if w2.cam.m_savedFrameRate.gtZero = true then
        (SetFrameRate drv w2.cam.m_savedFrameRate w2).2 else w2).cam.m_handle = w2.cam.m_handle ∧
      (if w2.cam.m_savedFrameRate.gtZero = true then
        (SetFrameRate drv w2.cam.m_savedFrameRate w2).2 else w2).cam.store = w2.cam.store ∧
      (if w2.cam.m_savedFrameRate.gtZero = true then
        (SetFrameRate drv w2.cam.m_savedFrameRate w2).2 else w2).log = w2.log ++
          (if w2.cam.m_savedFrameRate.gtZero = true then
            Event.SetFloatValue w2.cam.m_handle "AcquisitionFrameRate" w2.cam.m_savedFrameRate ::
              (if (drv w2.calls).status ≠ MV_OK then
                [Event.SetEnumValue w2.cam.m_handle "AcquisitionFrameRateEnable" 1,
                  Event.SetFloatValue w2.cam.m_handle "AcquisitionFrameRate"
                    w2.cam.m_savedFrameRate]
              else [])
          else []) := by
    split_ifs
    · exact ⟨by rw [SetFrameRate_isOpen]; exact o2, SetFrameRate_handle drv _ w2,
        SetFrameRate_store_self drv w2, by rw [SetFrameRate_log drv _ w2 o2, if_pos ‹_›]⟩
    · exact ⟨by rw [SetFrameRate_isOpen]; exact o2, SetFrameRate_handle drv _ w2,
        SetFrameRate_store_self drv w2, by rw [SetFrameRate_log drv _ w2 o2, if_neg ‹_›]⟩
    · exact ⟨o2, rfl, rfl, by simp⟩
  generalize (if w2.cam.m_savedFrameRate.gtZero = true then
      (SetFrameRate drv w2.cam.m_savedFrameRate w2).2 else w2) = w3 at p3 ⊢
  obtain ⟨o3, hd3, st3, l3⟩ := p3
  have p4 : (if 0 < w3.cam.m_savedPixelFormat then
        (SetPixelFormat drv w3.cam.m_savedPixelFormat w3).2 else w3).cam.m_isOpen = true ∧
      (if 0 < w3.cam.m_savedPixelFormat then
        (SetPixelFormat drv w3.cam.m_savedPixelFormat w3).2 else w3).cam.m_handle =
          w3.cam.m_handle ∧
      (if 0 < w3.cam.m_savedPixelFormat then
        (SetPixelFormat drv w3.cam.m_savedPixelFormat w3).2 else w3).cam.store = w3.cam.store ∧
      (if 0 < w3.cam.m_savedPixelFormat then
        (SetPixelFormat drv w3.cam.m_savedPixelFormat w3).2 else w3).log = w3.log ++
          (if 0 < w3.cam.m_savedPixelFormat then
            [Event.SetEnumValue w3.cam.m_handle "PixelFormat" w3.cam.m_savedPixelFormat]
          else []) := by
    split_ifs
    · exact ⟨by rw [SetPixelFormat_isOpen]; exact o3, SetPixelFormat_handle drv _ w3,
        SetPixelFormat_store_self drv w3, (SetPixelFormat_log drv _ w3 o3).1⟩
    · exact ⟨o3, rfl, rfl, by simp⟩
  generalize (if 0 < w3.cam.m_savedPixelFormat then
      (SetPixelFormat drv w3.cam.m_savedPixelFormat w3).2 else w3) = w4 at p4 ⊢
  obtain ⟨o4, hd4, st4, l4⟩ := p4
  have g1 : w1.cam.m_savedGain = w.cam.m_savedGain := congrArg ParameterStore.gain st1
  have f2 : w2.cam.m_savedFrameRate = w.cam.m_savedFrameRate :=
    (congrArg ParameterStore.frameRate st2).trans (congrArg ParameterStore.frameRate st1)
  have x3 : w3.cam.m_savedPixelFormat = w.cam.m_savedPixelFormat :=
    (congrArg ParameterStore.pixelFormat st3).trans
      ((congrArg ParameterStore.pixelFormat st2).trans (congrArg ParameterStore.pixelFormat st1))
  have t4 : w4.cam.m_savedTrigger = w.cam.m_savedTrigger :=
    (congrArg ParameterStore.trigger st4).trans ((congrArg ParameterStore.trigger st3).trans
      ((congrArg ParameterStore.trigger st2).trans (congrArg ParameterStore.trigger st1)))
  rw [SetTriggerMode_log drv _ w4 o4, l4, l3, l2, l1, hd4, hd3, hd2, hd1, t4, x3, f2, g1, c2, c1,
    g1]
  unfold replayCalls
  simp only [List.append_assoc]

theorem StartGrabbing_log (w : World) (h : w.cam.m_isOpen = true) :
    (StartGrabbing drv w).2.log =
      w.log ++ (if w.cam.m_isGrabbing = true then [] else [.StartGrabbing w.cam.m_handle]) := by
  unfold StartGrabbing; dsimp only
  rw [if_neg (by simp [h])]
  split_ifs <;> simp [World.tick, World.SetError, World.setLastError]

theorem StopGrabbing_log (w : World) : ∃ es, (StopGrabbing drv w).2.log = w.log ++ es := by
  unfold StopGrabbing; dsimp only
  split_ifs
  · exact ⟨[], by simp⟩
  · exact ⟨_, rfl⟩
  · exact ⟨_, rfl⟩

theorem Close_log (w : World) : ∃ es, (Close drv w).2.log = w.log ++ es := by
  obtain ⟨es, hes⟩ := StopGrabbing_log drv w
  unfold Close; dsimp only
  split_ifs
  · exact ⟨[], by simp⟩
  all_goals
    simp only [World.tick, World.SetError, World.setLastError, hes, List.append_assoc]
    exact ⟨_, rfl⟩

/-- Which set calls `replayCalls` holds. -/
theorem replayCalls_mem (w : World) (h : Handle) (x : Nat) :
    (Event.SetFloatValue h "ExposureTime" x ∈ replayCalls drv w ↔
      w.cam.m_savedExposure.gtZero = true ∧ h = w.cam.m_handle ∧ x = w.cam.m_savedExposure) ∧
    (Event.SetFloatValue h "Gain" x ∈ replayCalls drv w ↔
      w.cam.m_savedGain.gtZero = true ∧ h = w.cam.m_handle ∧ x = w.cam.m_savedGain) ∧
    (Event.SetFloatValue h "AcquisitionFrameRate" x ∈ replayCalls drv w ↔
      w.cam.m_savedFrameRate.gtZero = true ∧ h = w.cam.m_handle ∧
        x = w.cam.m_savedFrameRate) ∧
    (Event.SetEnumValue h "PixelFormat" x ∈ replayCalls drv w ↔
      0 < w.cam.m_savedPixelFormat ∧ h = w.cam.m_handle ∧ x = w.cam.m_savedPixelFormat) ∧
    (Event.SetEnumValue h "TriggerMode" x ∈ replayCalls drv w ↔
      h = w.cam.m_handle ∧ x = (if w.cam.m_savedTrigger = true then 1 else 0)) := by
  unfold replayCalls
  refine ⟨?_, ?_, ?_, ?_, ?_⟩ <;> split_ifs <;> simp_all

/-- The comparison `> 0.0f` fails on both zeros, and on values that are
neither negative nor NaN it holds exactly for the non-zero ones. -/
theorem F32.gtZero_facts (x : F32) :
    (x.gtZero = true → x.isZero = false) ∧ (x.isZero = true → x.gtZero = false) ∧
      (x ≤ 0x7F800000 → (x.gtZero = true ↔ x.isZero = false)) := by
  have key : ∀ y : Nat,
      ((0 < y ∧ y ≤ 0x7F800000) → ¬ (y = 0 ∨ y = 0x80000000)) ∧
      ((y = 0 ∨ y = 0x80000000) → ¬ (0 < y ∧ y ≤ 0x7F800000)) ∧
      (y ≤ 0x7F800000 → ((0 < y ∧ y ≤ 0x7F800000) ↔ ¬ (y = 0 ∨ y = 0x80000000))) := by
    intro y; omega
  simp only [F32.gtZero, F32.isZero, decide_eq_true_eq, decide_eq_false_iff_not]
  exact key x

end replay

/-- C13: on every `Reconnect` attempt whose `Open` succeeds, the events
logged after those of `Open` are first the replay of the Parameter Store and
then the start of grabbing.  The replay holds a set call for exposure, gain,
frame rate and pixel format, with the stored value, exactly when the stored
value compares greater than zero, hence only if it is non-zero and never for
a zero value (for a stored value that is neither negative nor NaN: exactly
when it is non-zero); it always holds the trigger-mode set call with the
stored flag, `1` for true and `0` for false. -/
theorem C13_reconnect_replays_store (drv : Driver) (index : Nat) (d a : Int) (v : World)
    (hopen : (Open drv index (ReconnectPrepare drv d a v)).1 = true) :
    (∃ rest, (ReconnectAttempt drv index d a v).2.log =
      (Open drv index (ReconnectPrepare drv d a v)).2.log ++
        replayCalls drv (Open drv index (ReconnectPrepare drv d a v)).2 ++
        (if (ReconnectRestore drv (Open drv index (ReconnectPrepare drv d a v)).2).cam.m_isGrabbing
            = true then []
          else [.StartGrabbing (Open drv index (ReconnectPrepare drv d a v)).2.cam.m_handle]) ++
        rest) ∧
    (∀ (w : World) (h : Handle) (x : Nat),
      (Event.SetFloatValue h "ExposureTime" x ∈ replayCalls drv w ↔
        w.cam.m_savedExposure.gtZero = true ∧ h = w.cam.m_handle ∧
          x = w.cam.m_savedExposure) ∧
      (Event.SetFloatValue h "Gain" x ∈ replayCalls drv w ↔
        w.cam.m_savedGain.gtZero = true ∧ h = w.cam.m_handle ∧ x = w.cam.m_savedGain) ∧
      (Event.SetFloatValue h "AcquisitionFrameRate" x ∈ replayCalls drv w ↔
        w.cam.m_savedFrameRate.gtZero = true ∧ h = w.cam.m_handle ∧
          x = w.cam.m_savedFrameRate) ∧
      (Event.SetEnumValue h "PixelFormat" x ∈ replayCalls drv w ↔
        0 < w.cam.m_savedPixelFormat ∧ h = w.cam.m_handle ∧ x = w.cam.m_savedPixelFormat) ∧
      (Event.SetEnumValue h "TriggerMode" x ∈ replayCalls drv w ↔
        h = w.cam.m_handle ∧ x = (if w.cam.m_savedTrigger = true then 1 else 0))) ∧
    (∀ x : F32, (x.gtZero = true → x.isZero = false) ∧ (x.isZero = true → x.gtZero = false) ∧
      (x ≤ 0x7F800000 → (x.gtZero = true ↔ x.isZero = false))) := by
  refine ⟨?_, replayCalls_mem drv, F32.gtZero_facts⟩
  have ho := Open_true_isOpen drv index _ hopen
  have hr : (ReconnectRestore drv (Open drv index (ReconnectPrepare drv d a v)).2).cam.m_isOpen
      = true := by rw [ReconnectRestore_isOpen]; exact ho
  have hl := StartGrabbing_log drv _ hr
  rw [ReconnectRestore_log drv _ ho, ReconnectRestore_handle] at hl
  unfold ReconnectAttempt; dsimp only
  rw [if_neg (by simp [hopen])]
  by_cases hs : (StartGrabbing drv
      (ReconnectRestore drv (Open drv index (ReconnectPrepare drv d a v)).2)).1 = false
  · rw [if_pos hs]
    obtain ⟨es, hes⟩ := Close_log drv
      (StartGrabbing drv (ReconnectRestore drv (Open drv index (ReconnectPrepare drv d a v)).2)).2
    exact ⟨es, by rw [hes, hl]⟩
  · rw [if_neg hs]
    exact ⟨[], by rw [hl, List.append_nil]⟩

/-- C13 at a concrete input: the first attempt of `Reconnect(0, 3, 100)` on the
closed session with stored exposure 5000 logs, after `Open`, the exposure set
call, the trigger-mode set call and then the start of grabbing. -/
theorem C13_reconnect_replays_store_witness :
    (ReconnectAttempt okDriver 0 100 1 configuredClosed).2.log.drop
        (Open okDriver 0 (ReconnectPrepare okDriver 100 1 configuredClosed)).2.log.length =
      [.SetFloatValue (some 7) "ExposureTime" f5000, .SetEnumValue (some 7) "TriggerMode" 0,
        .StartGrabbing (some 7)] ∧
      (∃ rest, (ReconnectAttempt okDriver 0 100 1 configuredClosed).2.log =
        (Open okDriver 0 (ReconnectPrepare okDriver 100 1 configuredClosed)).2.log ++
          replayCalls okDriver (Open okDriver 0 (ReconnectPrepare okDriver 100 1 configuredClosed)).2 ++
          (if (ReconnectRestore okDriver
                (Open okDriver 0 (ReconnectPrepare okDriver 100 1 configuredClosed)).2).cam.m_isGrabbing
              = true then []
            else [.StartGrabbing
              (Open okDriver 0 (ReconnectPrepare okDriver 100 1 configuredClosed)).2.cam.m_handle]) ++
          rest) :=
  ⟨by decide, (C13_reconnect_replays_store okDriver 0 100 1 configuredClosed (by decide)).1⟩

/-! ## The address text -/

/-- Masking one byte at bit `k` and shifting it down gives that byte. -/
theorem and_shiftRight_byte (ip k : Nat) :
    ((ip &&& (255 <<< k)) >>> k) = ip / 2 ^ k % 256 := by
  apply Nat.eq_of_testBit_eq
  intro i
  have h255 : (255 : Nat) = 2 ^ 8 - 1 := by norm_num
  have h256 : (256 : Nat) = 2 ^ 8 := by norm_num
  rw [Nat.testBit_shiftRight, Nat.testBit_and, Nat.testBit_shiftLeft, h256,
    Nat.testBit_mod_two_pow, ← Nat.shiftRight_eq_div_pow, Nat.testBit_shiftRight, h255,
    Nat.testBit_two_pow_sub_one]
  simp
  exact Bool.and_comm _ _

set_option maxRecDepth 100000 in
theorem digitsValue_toDigits : ∀ a < 256, digitsValue (Nat.toDigits 10 a) = a := by decide

set_option maxRecDepth 100000 in
theorem dot_not_mem_toDigits : ∀ a < 256, '.' ∉ Nat.toDigits 10 a := by decide

theorem split_at_dot (s1 s2 t1 t2 : List Char) (h1 : '.' ∉ s1) (h2 : '.' ∉ s2)
    (h : s1 ++ '.' :: t1 = s2 ++ '.' :: t2) : s1 = s2 ∧ t1 = t2 := by
  induction s1 generalizing s2 with
  | nil =>
    cases s2 with
    | nil => simpa using h
    | cons c r =>
      simp at h
      exact absurd h.1 (by intro e; exact h2 (by simp [← e]))
  | cons c r ih =>
    cases s2 with
    | nil =>
      simp at h
      exact absurd h.1 (by intro e; exact h1 (by simp [e]))
    | cons c2 r2 =>
      simp at h
      have := ih r2 (fun hm => h1 (List.mem_cons_of_mem _ hm))
        (fun hm => h2 (List.mem_cons_of_mem _ hm)) h.2
      exact ⟨by rw [h.1, this.1], this.2⟩

theorem toDigits_inj_byte (a b : Nat) (ha : a < 256) (hb : b < 256)
    (h : Nat.toDigits 10 a = Nat.toDigits 10 b) : a = b := by
  rw [← digitsValue_toDigits a ha, ← digitsValue_toDigits b hb, h]

/-- Two dotted quads of bytes with the same text have the same bytes. -/
theorem dottedQuad_inj (a b c d a' b' c' d' : Nat) (ha : a < 256) (hb : b < 256)
    (hc : c < 256) (hd : d < 256) (ha' : a' < 256) (hb' : b' < 256) (hc' : c' < 256)
    (hd' : d' < 256) (h : dottedQuad a b c d = dottedQuad a' b' c' d') :
    a = a' ∧ b = b' ∧ c = c' ∧ d = d' := by
  have hdata := congrArg String.data h
  simp only [dottedQuad, decString, String.data_append, List.append_assoc] at hdata
  have e1 := split_at_dot _ _ _ _ (dot_not_mem_toDigits a ha) (dot_not_mem_toDigits a' ha') hdata
  have e2 := split_at_dot _ _ _ _ (dot_not_mem_toDigits b hb) (dot_not_mem_toDigits b' hb') e1.2
  have e3 := split_at_dot _ _ _ _ (dot_not_mem_toDigits c hc) (dot_not_mem_toDigits c' hc') e2.2
  exact ⟨toDigits_inj_byte a a' ha ha' e1.1, toDigits_inj_byte b b' hb hb' e2.1,
    toDigits_inj_byte c c' hc hc' e3.1, toDigits_inj_byte d d' hd hd' e3.2⟩

/-- The text built from a packed address is the dotted quad of its bytes. -/
theorem formatIp_eq (ip : Nat) (h : ip < 4294967296) :
    formatIp ip =
      dottedQuad (ip / 16777216) (ip / 65536 % 256) (ip / 256 % 256) (ip % 256) := by
  have s24 : (255 : Nat) <<< 24 = 0xFF000000 := by decide
  have s16 : (255 : Nat) <<< 16 = 0x00FF0000 := by decide
  have s8 : (255 : Nat) <<< 8 = 0x0000FF00 := by decide
  have e24 : (ip &&& 0xFF000000) >>> 24 = ip / 16777216 := by
    have := and_shiftRight_byte ip 24
    rw [s24] at this
    rw [this]; omega
  have e16 : (ip &&& 0x00FF0000) >>> 16 = ip / 65536 % 256 := by
    have := and_shiftRight_byte ip 16
    rw [s16] at this
    exact this
  have e8 : (ip &&& 0x0000FF00) >>> 8 = ip / 256 % 256 := by
    have := and_shiftRight_byte ip 8
    rw [s8] at this
    exact this
  have e0 : ip &&& 0x000000FF = ip % 256 := by
    have := and_shiftRight_byte ip 0
    simpa using this
  unfold formatIp dottedQuad
  rw [e24, e16, e8, e0]

/-- C15: for every 32-bit packed address `ip`, the address text built by the
enumeration for a networked device is "a.b.c.d" with `a = ip / 2^24`,
`b = (ip / 2^16) mod 256`, `c = (ip / 2^8) mod 256`, `d = ip mod 256` in
decimal; each of the four numbers is at most 255, they add up to `ip` with
weights `2^24`, `2^16`, `2^8`, `1`, and two 32-bit addresses with the same
text are equal.  A successful enumeration returns one entry for each device
of the driver's list, in the driver's order. -/
theorem C15_address_text (ip : Nat) (h : ip < 4294967296) :
    formatIp ip =
        dottedQuad (ip / 16777216) (ip / 65536 % 256) (ip / 256 % 256) (ip % 256) ∧
      ip / 16777216 ≤ 255 ∧ ip / 65536 % 256 ≤ 255 ∧ ip / 256 % 256 ≤ 255 ∧ ip % 256 ≤ 255 ∧
      ip / 16777216 * 16777216 + ip / 65536 % 256 * 65536 + ip / 256 % 256 * 256 + ip % 256
        = ip ∧
      (∀ ip2 : Nat, ip2 < 4294967296 → formatIp ip2 = formatIp ip → ip2 = ip) ∧
      (∀ d : DeviceInfo, d.nTLayerType = MV_GIGE_DEVICE → d.nCurrentIp = ip →
        (cameraInfoOf d).ipAddress = formatIp ip) ∧
      (∀ (drv : Driver) (w : World), (drv w.calls).status = MV_OK →
        (EnumerateDevices drv w).1 = (drv w.calls).devices.map cameraInfoOf) := by
  refine ⟨formatIp_eq ip h, by omega, by omega, by omega, by omega, by omega, ?_, ?_, ?_⟩
  · intro ip2 h2 heq
    rw [formatIp_eq ip h, formatIp_eq ip2 h2] at heq
    have e := dottedQuad_inj _ _ _ _ _ _ _ _ (by omega) (by omega) (by omega) (by omega)
      (by omega) (by omega) (by omega) (by omega) heq
    omega
  · intro d hd hip
    unfold cameraInfoOf
    rw [if_pos hd, hip, Nat.mod_eq_of_lt h]
  · intro drv w hs
    unfold EnumerateDevices; dsimp only
    rw [if_neg (by simp [hs])]

/-- C15 at a concrete input: the packed address `3232235777` gives the text
"192.168.1.1", also through the enumeration. -/
theorem C15_address_text_witness :
    formatIp 3232235777 = "192.168.1.1" ∧
      (EnumerateDevices okDriver World.init).1.map CameraInfo.ipAddress = ["192.168.1.1"] :=
  ⟨((C15_address_text 3232235777 (by decide)).1).trans (by decide), by decide⟩

/-- A stored exposure of -1.0 (non-zero, but not greater than zero) is not
applied again: the first attempt of `Reconnect(0, 3, 100)` logs, after `Open`,
only the trigger-mode set call and the start of grabbing. -/
theorem replay_skips_negative_exposure :
    negativeExposureClosed.cam.m_savedExposure = 0xBF800000 ∧
      (ReconnectAttempt okDriver 0 100 1 negativeExposureClosed).2.log.drop
          (Open okDriver 0 (ReconnectPrepare okDriver 100 1 negativeExposureClosed)).2.log.length =
        [.SetEnumValue (some 7) "TriggerMode" 0, .StartGrabbing (some 7)] :=
  ⟨by decide, by decide⟩

end hik
